import Mathlib

/-!
Shallow embedding of the traffic simulation in
`src/Intro-To-raylib-Tutorial-main/src/main.cpp` (the most advanced variant in
the repository).  Floating point values are modelled as rationals; the `float`
constants of the source are exactly representable.  Pointer identity of the
C++ `Vehicle*` weak references is modelled by a numeric vehicle id (`idv`),
and the accident's two weak references hold `Option Nat` ids.
-/

namespace TrafficSim

/-- `SCREEN_WIDTH` from main.cpp. -/
def SCREEN_WIDTH : ℚ := 1600
/-- `LANE_HEIGHT` from main.cpp. -/
def LANE_HEIGHT : ℚ := 45
/-- `VEHICLE_WIDTH` from main.cpp. -/
def VEHICLE_WIDTH : ℚ := 90
/-- `SAFE_DISTANCE` from main.cpp. -/
def SAFE_DISTANCE : ℚ := 45
/-- `ROAD_Y_TOP` from main.cpp. -/
def ROAD_Y_TOP : ℚ := 110
/-- `ROAD_Y_BOTTOM` from main.cpp. -/
def ROAD_Y_BOTTOM : ℚ := 280
/-- `ROAD_HEIGHT` from main.cpp. -/
def ROAD_HEIGHT : ℚ := 140

/-- Lane y coordinates of the top road: `laneYTop[i] = ROAD_Y_TOP + 10 + i*LANE_HEIGHT`. -/
def laneYTop (i : Fin 3) : ℚ := ROAD_Y_TOP + 10 + (i : ℕ) * LANE_HEIGHT

/-- Lane y coordinates of the bottom road: `laneYBottom[i] = ROAD_Y_BOTTOM + 10 + i*LANE_HEIGHT`. -/
def laneYBottom (i : Fin 3) : ℚ := ROAD_Y_BOTTOM + 10 + (i : ℕ) * LANE_HEIGHT

/-- `AmbulanceState` enum from main.cpp. -/
inductive AmbState where
  | PATROL
  | TO_ACCIDENT
  | WAIT_AT_ACCIDENT
  | TO_HOSPITAL
  | WAIT_AT_HOSPITAL
  | LEAVING
deriving DecidableEq, Repr

open AmbState

/-- The `TrafficLight` class: box position, timer, red flag, cycle duration. -/
structure TrafficLight where
  boxX : ℚ
  boxY : ℚ
  boxW : ℚ
  timer : ℚ
  red : Bool
  cycleTime : ℚ
deriving DecidableEq, Repr

/-- `TrafficLight::Update`: accumulate the timer; on reaching `cycleTime`,
reset it to 0 and flip the red flag. -/
def TrafficLight.update (l : TrafficLight) (delta : ℚ) : TrafficLight :=
  let t := l.timer + delta
  if t ≥ l.cycleTime then { l with timer := 0, red := !l.red }
  else { l with timer := t }

/-- `TrafficLight::GetStopLineX`: `box.x - 40` when approaching right-to-left,
`box.x + box.width + 40` otherwise. -/
def TrafficLight.stopLineX (l : TrafficLight) (rightToLeft : Bool) : ℚ :=
  if rightToLeft then l.boxX - 40 else l.boxX + l.boxW + 40

/-- The `Vehicle` class hierarchy flattened: common `Vehicle` fields plus the
`Ambulance` fields (`ambState`, `stateTimer`, `accidentX`, `accidentY`) and
the `Depannage` fields (`hasPickedUp`, `targetX`, `workTimer`, `isWorking`).
`ambul` and `depann` mirror the `ambulance` / `depannage` discriminator flags.
`idv` models pointer identity. -/
structure Vehicle where
  idv : ℕ
  x : ℚ
  y : ℚ
  targetY : ℚ
  speed : ℚ
  moving : Bool
  ambul : Bool
  depann : Bool
  dirRight : Bool
  changedLane : Bool
  forcedStop : Bool
  isCrashed : Bool
  toBeRemoved : Bool
  isReckless : Bool
  isAccidentTarget : Bool
  isTowed : Bool
  laneLock : Bool
  towOffsetX : ℚ
  ambState : AmbState
  stateTimer : ℚ
  accidentX : ℚ
  accidentY : ℚ
  hasPickedUp : Bool
  targetX : ℚ
  workTimer : ℚ
  isWorking : Bool
deriving DecidableEq, Repr

namespace Vehicle

/-- `Vehicle::IsOffScreen`: beyond a 200-unit margin past the screen edge,
direction dependent. -/
def offScreen (v : Vehicle) : Bool :=
  if v.dirRight then decide (v.x > SCREEN_WIDTH + 200) else decide (v.x < -200)

/-- The lane-change smoothing step shared by all `Update` overrides:
if `|targetY - y| > 0.5` then `y += (targetY - y) * 0.08` else `y = targetY`. -/
def laneSmooth (v : Vehicle) : Vehicle :=
  if |v.targetY - v.y| > 1/2 then { v with y := v.y + (v.targetY - v.y) * (2/25) }
  else { v with y := v.targetY }

/-- `Vehicle::Update(stopForRed)`: crashed-and-not-towed and towed vehicles do
nothing; reckless vehicles clear both stop inputs (including the stored
`forcedStop`); a moving, unstopped vehicle advances by `speed` along its
direction; then lane smoothing. -/
def baseUpdate (v : Vehicle) (stopForRed : Bool) : Vehicle :=
  if v.isCrashed ∧ ¬v.isTowed then v
  else if v.isTowed then v
  else
    let sr := if v.isReckless then false else stopForRed
    let v := if v.isReckless then { v with forcedStop := false } else v
    let v :=
      if v.moving ∧ ¬sr ∧ ¬v.forcedStop then
        { v with x := v.x + (if v.dirRight then v.speed else -v.speed) }
      else v
    laneSmooth v

/-- `Ambulance::Update`: the six-state machine, followed by lane smoothing.
The `GetFrameTime()` calls of the source are modelled by the `delta`
parameter. -/
def ambUpdate (v : Vehicle) (delta : ℚ) (stopForRed : Bool) : Vehicle :=
  match v.ambState with
  | PATROL => laneSmooth (baseUpdate v stopForRed)
  | TO_ACCIDENT =>
      let v := { v with x := if v.dirRight then v.x + v.speed else v.x - v.speed }
      let v :=
        if v.x ≤ v.accidentX + 160 then
          { v with x := v.accidentX + 160, ambState := WAIT_AT_ACCIDENT, stateTimer := 0 }
        else v
      laneSmooth v
  | WAIT_AT_ACCIDENT =>
      let v := { v with stateTimer := v.stateTimer + delta }
      let v := if v.stateTimer ≥ 5 then { v with ambState := TO_HOSPITAL } else v
      laneSmooth v
  | TO_HOSPITAL =>
      let v :=
        if v.x > 80 then { v with x := v.x - v.speed }
        else { v with ambState := WAIT_AT_HOSPITAL, stateTimer := 0 }
      laneSmooth v
  | WAIT_AT_HOSPITAL =>
      let v := { v with stateTimer := v.stateTimer + delta }
      let v := if v.stateTimer ≥ 5 then { v with ambState := LEAVING } else v
      laneSmooth v
  | LEAVING => laneSmooth { v with x := v.x - v.speed }

/-- `Depannage::Update`: drive until `targetX + 180`, work for 2 seconds, flip
`hasPickedUp`, then leave leftward; followed by lane smoothing. -/
def depUpdate (v : Vehicle) (delta : ℚ) : Vehicle :=
  let v :=
    if ¬v.hasPickedUp then
      if ¬v.isWorking then
        if v.x > v.targetX + 180 then { v with x := v.x - v.speed }
        else { v with isWorking := true, workTimer := 0 }
      else
        let v := { v with workTimer := v.workTimer + delta }
        if v.workTimer > 2 then { v with hasPickedUp := true, isWorking := false } else v
    else { v with x := v.x - v.speed }
  laneSmooth v

/-- Virtual dispatch of `v->Update(stop)` by dynamic type, modelled through
the discriminator flags. -/
def dispatchUpdate (v : Vehicle) (delta : ℚ) (stopForRed : Bool) : Vehicle :=
  if v.ambul then ambUpdate v delta stopForRed
  else if v.depann then depUpdate v delta
  else baseUpdate v stopForRed

end Vehicle

/-- The `Accident` struct: state flags, collision point, and the two weak
references (ids of the front car `car1` and rear car `car2`). -/
structure Accident where
  active : Bool
  pending : Bool
  x : ℚ
  y : ℚ
  car1 : Option ℕ
  car2 : Option ℕ
deriving DecidableEq, Repr

/-- Look a vehicle up by id (dereference of a weak reference). -/
def findV (vs : List Vehicle) (i : ℕ) : Option Vehicle :=
  vs.find? (fun v => v.idv = i)

/-- Mutation through a pointer: update every list entry carrying the id. -/
def setV (vs : List Vehicle) (i : ℕ) (f : Vehicle → Vehicle) : List Vehicle :=
  vs.map (fun v => if v.idv = i then f v else v)

/-- The `for (auto& v : vehiclesBottom) if (v->IsDepannage()) ptrTow = ...`
scan: id of the last tow truck in the collection, if any. -/
def lastDepId (vs : List Vehicle) : Option ℕ :=
  vs.foldl (fun acc v => if v.depann then some v.idv else acc) none

/-- Id of the last ambulance in the collection, if any (the
`activeAmbulance` scan). -/
def lastAmbId (vs : List Vehicle) : Option ℕ :=
  vs.foldl (fun acc v => if v.ambul then some v.idv else acc) none

/-! ## `Simulation::TriggerRandomAccident` -/

/-- Rear-candidate eligibility (the `continue` guards on `v1`, also used for
`v2`): not an ambulance, not a tow truck, not off screen, not towed, not
crashed. -/
def elig (v : Vehicle) : Bool :=
  !(v.ambul || v.depann || v.offScreen || v.isTowed || v.isCrashed)

/-- The inner-loop conditions on a front candidate `v2` for a fixed rear
candidate `v1`: `v2` eligible, same lane (`|targetY| diff < 5`), `v1` behind
(`v1.x > v2.x`), distance in `(110, 400)`, and both inside the valid bounds
(`v1.x < SCREEN_WIDTH - 100`, `v2.x > 100`). -/
def pairCond (v1 v2 : Vehicle) : Bool :=
  elig v2 && decide (|v1.targetY - v2.targetY| < 5) && decide (v1.x > v2.x) &&
  decide (v1.x - v2.x < 400) && decide (v1.x - v2.x > 110) &&
  decide (v1.x < SCREEN_WIDTH - 100) && decide (v2.x > 100)

/-- Inner loop of the trigger scan: walk the suffix `l` of the vehicle list
whose head sits at absolute index `j0`, skipping index `i`, and return the
first index whose vehicle satisfies `pairCond v1`. -/
def innerScan (v1 : Vehicle) (i : ℕ) : ℕ → List Vehicle → Option ℕ
  | _, [] => none
  | j0, v2 :: rest =>
      if j0 ≠ i ∧ pairCond v1 v2 then some j0 else innerScan v1 i (j0 + 1) rest

/-- Outer loop of the trigger scan: walk the suffix `l` (head at absolute
index `i0`); for each eligible rear candidate run the inner scan over the
full list; return the first matching index pair `(rear, front)`. -/
def outerScan (full : List Vehicle) : ℕ → List Vehicle → Option (ℕ × ℕ)
  | _, [] => none
  | i0, v1 :: rest =>
      if elig v1 then
        match innerScan v1 i0 0 full with
        | some j => some (i0, j)
        | none => outerScan full (i0 + 1) rest
      else outerScan full (i0 + 1) rest

/-- The pair-selection scan of `TriggerRandomAccident`: indices of the first
(rear, front) pair in iteration order satisfying all conditions. -/
def findAccidentPair (vs : List Vehicle) : Option (ℕ × ℕ) :=
  outerScan vs 0 vs

/-- `Simulation::TriggerRandomAccident` acting on the bottom collection and
the accident record: no-op while an accident is pending or active; otherwise
mark the first qualifying pair (rear reckless, speed ×2.8; front
accident-target, speed ×0.4; both lane-locked) and set the accident pending
with `car1 = front`, `car2 = rear`. -/
def applyTrigger (vs : List Vehicle) (acc : Accident) : List Vehicle × Accident :=
  if acc.active ∨ acc.pending then (vs, acc)
  else
    match findAccidentPair vs with
    | none => (vs, acc)
    | some (i, j) =>
        match vs.get? i, vs.get? j with
        | some v1, some v2 =>
            let vs := vs.set i
              { v1 with isReckless := true, laneLock := true, speed := v1.speed * (28/10) }
            let vs := vs.set j
              { v2 with isAccidentTarget := true, laneLock := true, speed := v2.speed * (4/10) }
            (vs, { acc with pending := true, car1 := some v2.idv, car2 := some v1.idv })
        | _, _ => (vs, acc)

/-! ## `Simulation::Update` stages -/

/-- Stage 1 of `Simulation::Update`: if the tow truck is missing or past
`x < -600`, mark every towed vehicle `toBeRemoved`. -/
def towTruckGone (vs : List Vehicle) : Bool :=
  match lastDepId vs with
  | none => true
  | some t =>
      match findV vs t with
      | none => true
      | some tv => decide (tv.x < -600)

/-- The orphaned-towed-cars cleanup pass (stage 1 of `Simulation::Update`). -/
def cleanupOrphans (vs : List Vehicle) : List Vehicle :=
  if towTruckGone vs then
    vs.map (fun v => if v.isTowed then { v with toBeRemoved := true } else v)
  else vs

/-- The removal decision of the `remove_if` predicate on the bottom
collection; it depends only on the vehicle. -/
def pruneRemoves (v : Vehicle) : Bool :=
  if v.depann then decide (v.x < -600)
  else if v.isReckless || v.isAccidentTarget || v.isCrashed || v.isTowed then
    !(decide (v.x > -600) && !v.toBeRemoved)
  else v.offScreen || v.toBeRemoved

/-- The two sequential pointer-nulling ifs of the predicate
(`if (v.get() == car1) car1 = nullptr; if (v.get() == car2) ...`). -/
def pruneNullRefs (acc : Accident) (i : ℕ) : Accident :=
  if acc.car1 = some i then
    if acc.car2 = some i then { acc with car1 := none, car2 := none }
    else { acc with car1 := none }
  else
    if acc.car2 = some i then { acc with car2 := none } else acc

/-- The side effects of one `remove_if` predicate evaluation on the captured
accident record. -/
def pruneAccUpdate (acc : Accident) (v : Vehicle) : Accident :=
  if v.depann then acc
  else if v.isReckless || v.isAccidentTarget || v.isCrashed || v.isTowed then
    if decide (v.x > -600) && !v.toBeRemoved then acc
    else
      let a := pruneNullRefs acc v.idv
      if v.isAccidentTarget || v.isReckless || v.isCrashed then
        { a with pending := false, active := false }
      else a
  else if v.offScreen || v.toBeRemoved then
    if acc.car1 = some v.idv ∨ acc.car2 = some v.idv then
      { acc with car1 := none, car2 := none, pending := false, active := false }
    else acc
  else acc

/-- One evaluation of the `remove_if` predicate on the bottom collection,
together with its side effects on the captured accident record.  Returns
`(remove?, new accident)`. -/
def pruneStep (acc : Accident) (v : Vehicle) : Bool × Accident :=
  (pruneRemoves v, pruneAccUpdate acc v)

/-- The safe-removal pruning pass over the bottom collection (the
`vehiclesBottom.erase(remove_if ...)` call), evaluating the predicate on each
element in order and accumulating its accident-record side effects. -/
def pruneBottom : List Vehicle → Accident → List Vehicle × Accident
  | [], acc => ([], acc)
  | v :: rest, acc =>
      let s := pruneStep acc v
      let r := pruneBottom rest s.2
      (if s.1 then r.1 else v :: r.1, r.2)

/-- The pruning pass over the top collection: plain off-screen removal. -/
def pruneTop (vs : List Vehicle) : List Vehicle :=
  vs.filter (fun v => !v.offScreen)

/-- `Ambulance::AssignAccident` broadcast on a crash: every ambulance gets the
collision coordinates, state `TO_ACCIDENT`, and target lane `y`. -/
def assignAmbulances (vs : List Vehicle) (ax ay : ℚ) : List Vehicle :=
  vs.map (fun v =>
    if v.ambul then
      { v with accidentX := ax, accidentY := ay, ambState := AmbState.TO_ACCIDENT, targetY := ay }
    else v)

/-- The pending-accident collision resolution (stage after pruning in
`Simulation::Update`): while pending with both references non-null and live,
crash when the rear-minus-front gap lies strictly within
`(-VEHICLE_WIDTH, VEHICLE_WIDTH - 10)`; cancel the accident when a reference
is null. -/
def pendingCollision (vs : List Vehicle) (acc : Accident) : List Vehicle × Accident :=
  if acc.pending then
    match acc.car1, acc.car2 with
    | some i1, some i2 =>
        match findV vs i1, findV vs i2 with
        | some c1, some c2 =>
            let dist := c2.x - c1.x
            if dist < VEHICLE_WIDTH - 10 ∧ dist > -VEHICLE_WIDTH then
              let ax := c1.x + VEHICLE_WIDTH / 2
              let ay := c1.y
              let vs := setV vs i1 (fun v => { v with isCrashed := true, moving := false })
              let vs := setV vs i2
                (fun v => { v with isCrashed := true, isReckless := false, moving := false })
              let vs := assignAmbulances vs ax ay
              (vs, { acc with pending := false, active := true, x := ax, y := ay })
            else (vs, acc)
        | _, _ => (vs, acc)
    | _, _ => (vs, { acc with pending := false, active := false })
  else (vs, acc)

/-- The mutation applied to the front accident car on tow pickup. -/
def towAttachFront (ty : ℚ) (v : Vehicle) : Vehicle :=
  { v with isTowed := true, isCrashed := false, isAccidentTarget := false,
           towOffsetX := 100, y := ty }

/-- The mutation applied to the rear accident car on tow pickup. -/
def towAttachRear (ty : ℚ) (v : Vehicle) : Vehicle :=
  { v with isTowed := true, isCrashed := false, towOffsetX := 200, y := ty }

/-- The tow-truck pickup attachment (stage `1. Tow Truck Logic`): when the
active tow truck reports `hasPickedUp` and the accident is active, both
referenced cars become towed (crashed cleared, offsets 100 and 200), and the
accident is deactivated. -/
def towAttach (towId : Option ℕ) (vs : List Vehicle) (acc : Accident) :
    List Vehicle × Accident :=
  match towId with
  | none => (vs, acc)
  | some tid =>
      match findV vs tid with
      | none => (vs, acc)
      | some t =>
          if t.hasPickedUp ∧ acc.active then
            let vs :=
              match acc.car1 with
              | some i1 => setV vs i1 (towAttachFront t.y)
              | none => vs
            let vs :=
              match acc.car2 with
              | some i2 => setV vs i2 (towAttachRear t.y)
              | none => vs
            (vs, { acc with active := false })
          else (vs, acc)

/-- The towed-cars position update: every towed vehicle is slaved to the tow
truck's position plus its offset. -/
def towedPositions (towId : Option ℕ) (vs : List Vehicle) : List Vehicle :=
  match towId with
  | none => vs
  | some tid =>
      match findV vs tid with
      | none => vs
      | some t =>
          vs.map (fun v =>
            if v.isTowed then { v with x := t.x + v.towOffsetX, y := t.y } else v)

/-- The `2. Ambulance Lane Logic` stage: steer the active ambulance's target
lane by its state. -/
def ambulanceLane (ambId : Option ℕ) (vs : List Vehicle) (acc : Accident) : List Vehicle :=
  match ambId with
  | none => vs
  | some aid =>
      match findV vs aid with
      | none => vs
      | some a =>
          if a.ambState = AmbState.TO_HOSPITAL then
            setV vs aid (fun v => { v with targetY := laneYBottom 2 })
          else if a.ambState = AmbState.TO_ACCIDENT ∧ acc.active then
            setV vs aid (fun v => { v with targetY := acc.y })
          else vs

/-- The current-lane index computation of the dodge logic, a pair of
sequential overriding ifs on the vehicle's actual `y`. -/
def currentLaneIdx (v : Vehicle) : Fin 3 :=
  if |v.y - laneYBottom 2| < 5 then 2
  else if |v.y - laneYBottom 1| < 5 then 1
  else 0

/-- The dodge: switch `targetY` to the next lane round-robin among the three
bottom lanes and mark the vehicle lane-changed. -/
def dodge (v : Vehicle) : Vehicle :=
  { v with targetY := laneYBottom (currentLaneIdx v + 1), changedLane := true }

/-- The `tryYield` lambda: a vehicle sharing a lane with a moving emergency
vehicle approaching from behind within 350 units dodges. -/
def tryYield (vs : List Vehicle) (eid : Option ℕ) (v : Vehicle) : Vehicle :=
  match eid with
  | none => v
  | some e =>
      match findV vs e with
      | none => v
      | some ev =>
          if ev.moving then
            if |v.targetY - ev.targetY| < 5 then
              if ev.x - v.x > 0 ∧ ev.x - v.x < 350 then dodge v else v
            else v
          else v

/-- The accident-avoidance dodge: a non-lane-changed, non-locked vehicle
within 300 units behind an active accident in its lane dodges. -/
def applyAvoid (acc : Accident) (v : Vehicle) : Vehicle :=
  if acc.active ∧ ¬v.changedLane ∧ ¬v.laneLock then
    if |v.y - acc.y| < 5 ∧ v.x > acc.x then
      if v.x - acc.x < 300 then dodge v else v
    else v
  else v

/-- The lead-vehicle spacing scan of the bottom traffic loop: is there a
non-towed same-lane vehicle ahead (smaller `x`) whose rear edge is closer
than `SAFE_DISTANCE`? -/
def spacingStopB (vs : List Vehicle) (i : ℕ) (v : Vehicle) : Bool :=
  (List.range vs.length).any (fun j =>
    if j = i then false
    else
      match vs.get? j with
      | none => false
      | some o =>
          !o.isTowed && decide (|v.targetY - o.targetY| < 5) && decide (o.x < v.x) &&
          decide (v.x - (o.x + VEHICLE_WIDTH) < SAFE_DISTANCE))

/-- The yield and accident-avoidance mutations a plain car undergoes before
its stop flag is computed in the bottom traffic loop. -/
def bottomPre (acc : Accident) (ambId towId : Option ℕ) (vs : List Vehicle)
    (v : Vehicle) : Vehicle :=
  let v1 :=
    if ¬v.isReckless ∧ ¬v.laneLock ∧ ¬v.changedLane then
      tryYield vs towId (tryYield vs ambId v)
    else v
  if ¬v1.isReckless then applyAvoid acc v1 else v1

/-- One iteration of the `3. General Traffic Loop` over the bottom collection
at index `i`: skip crashed/towed vehicles; run emergency vehicles' own state
machines; otherwise apply yield, accident avoidance, the red-light check, the
spacing scan, store the forced-stop flag and advance. -/
def bottomStep (acc : Accident) (ambId towId : Option ℕ) (delta : ℚ)
    (light : TrafficLight) (vs : List Vehicle) (i : ℕ) : List Vehicle :=
  match vs.get? i with
  | none => vs
  | some v =>
      if v.isCrashed || v.isTowed then vs
      else if v.ambul || v.depann then vs.set i (v.dispatchUpdate delta false)
      else
        let v := bottomPre acc ambId towId vs v
        let stop :=
          if v.isReckless then false
          else
            let stopRed := light.red && decide (|v.x - light.stopLineX true| < 50)
            stopRed || spacingStopB vs i v
        let v := { v with forcedStop := stop }
        vs.set i (v.baseUpdate stop)

/-- The lead-vehicle spacing scan of the top traffic loop (exact `targetY`
equality, leader at larger `x`). -/
def spacingStopT (vs : List Vehicle) (i : ℕ) (v : Vehicle) : Bool :=
  (List.range vs.length).any (fun j =>
    if j = i then false
    else
      match vs.get? j with
      | none => false
      | some o =>
          decide (o.targetY = v.targetY) && decide (o.x > v.x) &&
          decide (o.x - VEHICLE_WIDTH - v.x < SAFE_DISTANCE))

/-- One iteration of the top-road traffic loop at index `i`: red-light check,
spacing scan, store the forced-stop flag and advance. -/
def topStep (delta : ℚ) (light : TrafficLight) (vs : List Vehicle) (i : ℕ) :
    List Vehicle :=
  match vs.get? i with
  | none => vs
  | some v =>
      let stopRed := light.red && decide (|v.x - light.stopLineX false| < 50)
      let stop := stopRed || spacingStopT vs i v
      let v := { v with forcedStop := stop }
      vs.set i (v.dispatchUpdate delta stop)

/-- Run an indexed in-place loop (`for (size_t i = 0; i < size; ++i)`) over a
vehicle list. -/
def runLoop (step : List Vehicle → ℕ → List Vehicle) (vs : List Vehicle) :
    List Vehicle :=
  (List.range vs.length).foldl step vs

/-- The tail of a frame once the `activeAmbulance` / `activeTow` scan has run
(lines 570-698 of main.cpp): tow pickup attachment, towed-car positions,
ambulance lane steering, and the bottom general traffic loop. -/
def frameTail (delta : ℚ) (light : TrafficLight) (vs : List Vehicle)
    (acc : Accident) : List Vehicle × Accident :=
  let ambId := lastAmbId vs
  let towId := lastDepId vs
  let r := towAttach towId vs acc
  let vs := towedPositions towId r.1
  let vs := ambulanceLane ambId vs r.2
  let vs := runLoop (bottomStep r.2 ambId towId delta light) vs
  (vs, r.2)

/-- The whole simulation state owned by the orchestrator. -/
structure SimState where
  vehiclesTop : List Vehicle
  vehiclesBottom : List Vehicle
  lightTop : TrafficLight
  lightBottom : TrafficLight
  carSpawnTimerTop : ℚ
  carSpawnTimerBottom : ℚ
  ambulanceActive : Bool
  screenAlertTimer : ℚ
  screenAlertOn : Bool
  currentAccident : Accident
  nextId : ℕ
deriving DecidableEq, Repr

/-- A fresh `Car`: all flags false, ambulance/depannage sub-state inert. -/
def mkCar (idv : ℕ) (x y speed : ℚ) (dirRight : Bool) : Vehicle :=
  { idv := idv, x := x, y := y, targetY := y, speed := speed, moving := true,
    ambul := false, depann := false, dirRight := dirRight, changedLane := false,
    forcedStop := false, isCrashed := false, toBeRemoved := false,
    isReckless := false, isAccidentTarget := false, isTowed := false,
    laneLock := false, towOffsetX := 0, ambState := AmbState.PATROL,
    stateTimer := 0, accidentX := 0, accidentY := 0, hasPickedUp := false,
    targetX := 0, workTimer := 0, isWorking := false }

/-- The per-frame random draws consumed by `Simulation::Update`
(`GetRandomValue` calls): spawn-interval thresholds (`GetRandomValue(20,35)/10`),
spawn lanes and speeds, and the random-accident roll (`GetRandomValue(0,1000)`). -/
structure Oracle where
  spawnThTop : ℚ
  spawnThBottom : ℚ
  laneTop : Fin 3
  laneBottom : Fin 3
  speedTop : ℚ
  speedBottom : ℚ
  accidentRoll : ℕ
deriving DecidableEq, Repr

/-- `Simulation::SpawnCarTop`: a car at `x = -200` moving rightward. -/
def spawnCarTop (o : Oracle) (s : SimState) : SimState :=
  let c := mkCar s.nextId (-200) (laneYTop o.laneTop) o.speedTop true
  { s with vehiclesTop := s.vehiclesTop ++ [c], nextId := s.nextId + 1 }

/-- `Simulation::SpawnCarBottom`: a car at `x = SCREEN_WIDTH + 200` moving
leftward. -/
def spawnCarBottom (o : Oracle) (s : SimState) : SimState :=
  let c := mkCar s.nextId (SCREEN_WIDTH + 200) (laneYBottom o.laneBottom) o.speedBottom false
  { s with vehiclesBottom := s.vehiclesBottom ++ [c], nextId := s.nextId + 1 }

/-- `Simulation::TriggerRandomAccident` as a state operation. -/
def triggerState (s : SimState) : SimState :=
  let r := applyTrigger s.vehiclesBottom s.currentAccident
  { s with vehiclesBottom := r.1, currentAccident := r.2 }

/-- Stage 1 of `Simulation::Update`: the orphaned-towed-cars cleanup. -/
def cleanupStage (s : SimState) : SimState :=
  { s with vehiclesBottom := cleanupOrphans s.vehiclesBottom }

/-- Stage 2 of `Simulation::Update`: the two spawn timers and spawns. -/
def spawnStage (o : Oracle) (delta : ℚ) (s : SimState) : SimState :=
  let tTop := s.carSpawnTimerTop + delta
  let s :=
    if tTop ≥ o.spawnThTop then spawnCarTop o { s with carSpawnTimerTop := 0 }
    else { s with carSpawnTimerTop := tTop }
  let tBot := s.carSpawnTimerBottom + delta
  if tBot ≥ o.spawnThBottom then spawnCarBottom o { s with carSpawnTimerBottom := 0 }
  else { s with carSpawnTimerBottom := tBot }

/-- Stage 3 of `Simulation::Update`: the low-chance random accident
(`GetRandomValue(0,1000) < 2`). -/
def maybeTriggerStage (o : Oracle) (s : SimState) : SimState :=
  if o.accidentRoll < 2 then triggerState s else s

/-- Stage 4 of `Simulation::Update`: advance both traffic lights. -/
def lightStage (delta : ℚ) (s : SimState) : SimState :=
  { s with lightTop := s.lightTop.update delta,
           lightBottom := s.lightBottom.update delta }

/-- Stage 5 of `Simulation::Update`: both pruning passes. -/
def pruneStage (s : SimState) : SimState :=
  let pr := pruneBottom s.vehiclesBottom s.currentAccident
  { s with vehiclesTop := pruneTop s.vehiclesTop,
           vehiclesBottom := pr.1, currentAccident := pr.2 }

/-- Stage 6 of `Simulation::Update`: pending-accident collision resolution. -/
def collisionStage (s : SimState) : SimState :=
  let pc := pendingCollision s.vehiclesBottom s.currentAccident
  { s with vehiclesBottom := pc.1, currentAccident := pc.2 }

/-- Stages 7-8 of `Simulation::Update`: the emergency-vehicle scan, tow
attachment, towed positions, ambulance lane steering and the bottom traffic
loop; the scan result also drives the ambulance-presence flag. -/
def emergencyStage (delta : ℚ) (s : SimState) : SimState :=
  let ambId := lastAmbId s.vehiclesBottom
  let ft := frameTail delta s.lightBottom s.vehiclesBottom s.currentAccident
  { s with vehiclesBottom := ft.1, currentAccident := ft.2,
           ambulanceActive := ambId.isSome }

/-- Stage 9 of `Simulation::Update`: the top-road traffic loop. -/
def topLoopStage (delta : ℚ) (s : SimState) : SimState :=
  { s with vehiclesTop := runLoop (topStep delta s.lightTop) s.vehiclesTop }

/-- Stage 10 of `Simulation::Update`: the 0.5-second alert toggle while an
ambulance is present. -/
def alertStage (delta : ℚ) (s : SimState) : SimState :=
  if s.ambulanceActive then
    let t := s.screenAlertTimer + delta
    if t ≥ 1/2 then { s with screenAlertOn := !s.screenAlertOn, screenAlertTimer := 0 }
    else { s with screenAlertTimer := t }
  else { s with screenAlertOn := false }

/-- `Simulation::Update(delta)`: the per-frame orchestrator algorithm, stage
by stage in source order. -/
def update (o : Oracle) (delta : ℚ) (s : SimState) : SimState :=
  alertStage delta
    (topLoopStage delta
      (emergencyStage delta
        (collisionStage
          (pruneStage
            (lightStage delta
              (maybeTriggerStage o
                (spawnStage o delta
                  (cleanupStage s))))))))

/-- A fresh `Ambulance` as constructed by `CallAmbulance`: spawned at
`x = SCREEN_WIDTH + 200` on the middle bottom lane with speed 4.5, facing
left. -/
def mkAmbulance (idv : ℕ) : Vehicle :=
  { mkCar idv (SCREEN_WIDTH + 200) (laneYBottom 1) (45/10) false with ambul := true }

/-- `Simulation::CallAmbulance`: trigger an accident when none is
outstanding, spawn an ambulance, assign it the collision point when the
accident is already active, and raise the ambulance-presence flag. -/
def callAmbulance (s : SimState) : SimState :=
  let s :=
    if ¬s.currentAccident.active ∧ ¬s.currentAccident.pending then triggerState s else s
  let amb := mkAmbulance s.nextId
  let amb :=
    if s.currentAccident.active then
      { amb with accidentX := s.currentAccident.x, accidentY := s.currentAccident.y,
                 ambState := AmbState.TO_ACCIDENT, targetY := s.currentAccident.y }
    else amb
  { s with vehiclesBottom := s.vehiclesBottom ++ [amb], nextId := s.nextId + 1,
           ambulanceActive := true }

/-- A fresh `Depannage` as constructed by `CallDepannage`: spawned at
`x = SCREEN_WIDTH + 200` on the accident's lane with speed 3.5, targeted at
the collision x. -/
def mkDepannage (idv : ℕ) (y targetX : ℚ) : Vehicle :=
  { mkCar idv (SCREEN_WIDTH + 200) y (35/10) false with depann := true, targetX := targetX }

/-- `Simulation::CallDepannage`: a silent no-op without an active accident;
otherwise spawn a tow truck targeted at the collision x. -/
def callDepannage (s : SimState) : SimState :=
  if ¬s.currentAccident.active then s
  else
    { s with
      vehiclesBottom :=
        s.vehiclesBottom ++ [mkDepannage s.nextId s.currentAccident.y s.currentAccident.x],
      nextId := s.nextId + 1 }

/-- The state built by the `Simulation` constructor: empty collections, both
lights red with 5-second cycles, no accident. -/
def initState : SimState :=
  { vehiclesTop := [], vehiclesBottom := [],
    lightTop := { boxX := SCREEN_WIDTH / 2 - 80, boxY := ROAD_Y_TOP - 80, boxW := 20,
                  timer := 0, red := true, cycleTime := 5 },
    lightBottom := { boxX := SCREEN_WIDTH / 2 - 150, boxY := ROAD_Y_BOTTOM + ROAD_HEIGHT + 20,
                     boxW := 20, timer := 0, red := true, cycleTime := 5 },
    carSpawnTimerTop := 0, carSpawnTimerBottom := 0, ambulanceActive := false,
    screenAlertTimer := 0, screenAlertOn := false,
    currentAccident := { active := false, pending := false, x := 0, y := 0,
                         car1 := none, car2 := none },
    nextId := 0 }

/-- States reachable from the constructor through frames and the three
key-triggered operations of the main loop. -/
inductive Reachable : SimState → Prop where
  | init : Reachable initState
  | step : ∀ s o delta, Reachable s → Reachable (update o delta s)
  | amb : ∀ s, Reachable s → Reachable (callAmbulance s)
  | dep : ∀ s, Reachable s → Reachable (callDepannage s)
  | trig : ∀ s, Reachable s → Reachable (triggerState s)

/-! ## Concrete fixtures used by witnesses and counterexamples -/

/-- A concrete left-moving ambulance in `TO_ACCIDENT` near its accident,
used by the C7 witness. -/
def ambWitnessV : Vehicle :=
  { mkAmbulance 0 with x := 260, speed := 45/10, ambState := AmbState.TO_ACCIDENT,
                       accidentX := 100, accidentY := 290 }

/-- A state with an outstanding (active) accident, used by the C9 witness. -/
def stateWithActive : SimState :=
  { initState with currentAccident :=
      { active := true, pending := false, x := 500, y := 290, car1 := none, car2 := none } }

/-- The front car of a concrete pending accident (C1 fixtures): an
accident-target car at `x = 100`. -/
def cexFrontCar : Vehicle :=
  { mkCar 0 100 290 2 false with isAccidentTarget := true, laneLock := true }

/-- The rear car of a concrete pending accident (C1 fixtures): a reckless car
at `x = 150`, 50 units behind the front car. -/
def cexRearCar : Vehicle :=
  { mkCar 1 150 290 (28/5) false with isReckless := true, laneLock := true }

/-- A pending accident referencing the two C1 fixture cars. -/
def cexPendingAcc : Accident :=
  { active := false, pending := true, x := 0, y := 0, car1 := some 0, car2 := some 1 }

/-- The bottom collection of the C1 fixtures. -/
def cexPendingVs : List Vehicle := [cexFrontCar, cexRearCar]

/-- An empty accident record (state `none`) used by fixtures. -/
def accNone : Accident :=
  { active := false, pending := false, x := 0, y := 0, car1 := none, car2 := none }

/-- A red bottom light as the simulation constructs it (stop line at 610). -/
def cexLightB : TrafficLight :=
  { boxX := SCREEN_WIDTH / 2 - 150, boxY := ROAD_Y_BOTTOM + ROAD_HEIGHT + 20, boxW := 20,
    timer := 0, red := true, cycleTime := 5 }

/-- C5 fixture: a leader car held at the red-light stop line `x = 610`. -/
def cexLeaderCar : Vehicle := mkCar 0 610 290 2 false

/-- C5 fixture: a trailing car at `x = 746`, exactly 46 units behind the
leader's rear edge — one unit more than `SAFE_DISTANCE`. -/
def cexTrailerCar : Vehicle := mkCar 1 746 290 (5/2) false

/-- C5 counterexample input: leader and trailer on the bottom road. -/
def cexSpacingVs : List Vehicle := [cexLeaderCar, cexTrailerCar]

/-- C5 counterexample output: the bottom traffic pass run on the fixture. -/
def cexSpacingOut : List Vehicle :=
  runLoop (bottomStep accNone none none (1/60) cexLightB) cexSpacingVs

/-- C5 witness fixture: a trailing car at `x = 740`, 40 units behind the
leader's rear edge — inside `SAFE_DISTANCE`, so its spacing check fires. -/
def cexTrailerNear : Vehicle := mkCar 1 740 290 (5/2) false

/-- C5 witness input list. -/
def cexStopVs : List Vehicle := [cexLeaderCar, cexTrailerNear]

/-- C4 witness fixture: a crashed car far off screen (`x = -700`),
referenced as front participant by an active accident. -/
def cexPruneCar : Vehicle := { mkCar 5 (-700) 290 2 false with isCrashed := true }

/-- C4 witness fixture: the active accident referencing `cexPruneCar`. -/
def cexPruneAcc : Accident :=
  { active := true, pending := false, x := 340, y := 290, car1 := some 5, car2 := some 9 }

/-- C6 fixture: a towed car stranded with no tow truck on the road. -/
def cexOrphanCar : Vehicle :=
  { mkCar 4 300 290 2 false with isTowed := true, towOffsetX := 100, moving := false }

/-- C6 fixture: a state whose bottom collection holds only the orphaned
towed car. -/
def cexOrphanState : SimState := { initState with vehiclesBottom := [cexOrphanCar] }

/-- C6 fixture: an oracle whose rolls spawn nothing and trigger nothing. -/
def cexOracle : Oracle :=
  { spawnThTop := 100, spawnThBottom := 100, laneTop := 0, laneBottom := 0,
    speedTop := 2, speedBottom := 2, accidentRoll := 500 }

/-- C2 fixture: the rear candidate car at `x = 400`. -/
def cexTrigRear : Vehicle := mkCar 11 400 290 2 false

/-- C2 fixture: the front candidate car at `x = 250`, 150 units ahead. -/
def cexTrigFront : Vehicle := mkCar 12 250 290 2 false

/-- C2 fixture: the bottom collection with the two trigger candidates. -/
def cexTrigVs : List Vehicle := [cexTrigRear, cexTrigFront]

/-- C3 fixture: a tow truck that has completed its pickup. -/
def cexTowTruck : Vehicle :=
  { mkCar 7 400 290 (35/10) false with depann := true, hasPickedUp := true, targetX := 220 }

/-- C3 fixture: the crashed front car of the active accident. -/
def cexCrash1 : Vehicle :=
  { mkCar 2 220 290 2 false with isCrashed := true, isAccidentTarget := true,
                                 moving := false, laneLock := true }

/-- C3 fixture: the crashed rear car of the active accident. -/
def cexCrash2 : Vehicle :=
  { mkCar 3 270 290 2 false with isCrashed := true, moving := false, laneLock := true }

/-- C3 fixture: the bottom collection with the two crashed cars and the tow
truck that has picked up. -/
def cexTowVs : List Vehicle := [cexCrash1, cexCrash2, cexTowTruck]

/-- C3 fixture: the active accident referencing the two crashed cars. -/
def cexTowAcc : Accident :=
  { active := true, pending := false, x := 265, y := 290, car1 := some 2, car2 := some 3 }

/-! ## Projection lemmas: which fields each update leaves untouched -/

namespace Vehicle

@[simp] lemma laneSmooth_x (v : Vehicle) : (laneSmooth v).x = v.x := by
  unfold laneSmooth; split <;> rfl

@[simp] lemma laneSmooth_targetY (v : Vehicle) : (laneSmooth v).targetY = v.targetY := by
  unfold laneSmooth; split <;> rfl

@[simp] lemma laneSmooth_idv (v : Vehicle) : (laneSmooth v).idv = v.idv := by
  unfold laneSmooth; split <;> rfl

@[simp] lemma laneSmooth_ambul (v : Vehicle) : (laneSmooth v).ambul = v.ambul := by
  unfold laneSmooth; split <;> rfl

@[simp] lemma laneSmooth_depann (v : Vehicle) : (laneSmooth v).depann = v.depann := by
  unfold laneSmooth; split <;> rfl

@[simp] lemma laneSmooth_dirRight (v : Vehicle) : (laneSmooth v).dirRight = v.dirRight := by
  unfold laneSmooth; split <;> rfl

@[simp] lemma laneSmooth_moving (v : Vehicle) : (laneSmooth v).moving = v.moving := by
  unfold laneSmooth; split <;> rfl

@[simp] lemma laneSmooth_speed (v : Vehicle) : (laneSmooth v).speed = v.speed := by
  unfold laneSmooth; split <;> rfl

@[simp] lemma laneSmooth_forcedStop (v : Vehicle) : (laneSmooth v).forcedStop = v.forcedStop := by
  unfold laneSmooth; split <;> rfl

@[simp] lemma laneSmooth_isCrashed (v : Vehicle) : (laneSmooth v).isCrashed = v.isCrashed := by
  unfold laneSmooth; split <;> rfl

@[simp] lemma laneSmooth_toBeRemoved (v : Vehicle) : (laneSmooth v).toBeRemoved = v.toBeRemoved := by
  unfold laneSmooth; split <;> rfl

@[simp] lemma laneSmooth_isReckless (v : Vehicle) : (laneSmooth v).isReckless = v.isReckless := by
  unfold laneSmooth; split <;> rfl

@[simp] lemma laneSmooth_isAccidentTarget (v : Vehicle) :
    (laneSmooth v).isAccidentTarget = v.isAccidentTarget := by
  unfold laneSmooth; split <;> rfl

@[simp] lemma laneSmooth_isTowed (v : Vehicle) : (laneSmooth v).isTowed = v.isTowed := by
  unfold laneSmooth; split <;> rfl

@[simp] lemma laneSmooth_laneLock (v : Vehicle) : (laneSmooth v).laneLock = v.laneLock := by
  unfold laneSmooth; split <;> rfl

@[simp] lemma laneSmooth_changedLane (v : Vehicle) : (laneSmooth v).changedLane = v.changedLane := by
  unfold laneSmooth; split <;> rfl

@[simp] lemma laneSmooth_towOffsetX (v : Vehicle) : (laneSmooth v).towOffsetX = v.towOffsetX := by
  unfold laneSmooth; split <;> rfl

@[simp] lemma laneSmooth_ambState (v : Vehicle) : (laneSmooth v).ambState = v.ambState := by
  unfold laneSmooth; split <;> rfl

@[simp] lemma laneSmooth_stateTimer (v : Vehicle) : (laneSmooth v).stateTimer = v.stateTimer := by
  unfold laneSmooth; split <;> rfl

@[simp] lemma laneSmooth_accidentX (v : Vehicle) : (laneSmooth v).accidentX = v.accidentX := by
  unfold laneSmooth; split <;> rfl

@[simp] lemma laneSmooth_accidentY (v : Vehicle) : (laneSmooth v).accidentY = v.accidentY := by
  unfold laneSmooth; split <;> rfl

@[simp] lemma laneSmooth_hasPickedUp (v : Vehicle) : (laneSmooth v).hasPickedUp = v.hasPickedUp := by
  unfold laneSmooth; split <;> rfl

@[simp] lemma laneSmooth_targetX (v : Vehicle) : (laneSmooth v).targetX = v.targetX := by
  unfold laneSmooth; split <;> rfl

@[simp] lemma laneSmooth_workTimer (v : Vehicle) : (laneSmooth v).workTimer = v.workTimer := by
  unfold laneSmooth; split <;> rfl

@[simp] lemma laneSmooth_isWorking (v : Vehicle) : (laneSmooth v).isWorking = v.isWorking := by
  unfold laneSmooth; split <;> rfl

@[simp] lemma baseUpdate_idv (v : Vehicle) (s : Bool) : (baseUpdate v s).idv = v.idv := by
  unfold baseUpdate; repeat' (first | rfl | split | simp)

@[simp] lemma baseUpdate_ambul (v : Vehicle) (s : Bool) : (baseUpdate v s).ambul = v.ambul := by
  unfold baseUpdate; repeat' (first | rfl | split | simp)

@[simp] lemma baseUpdate_depann (v : Vehicle) (s : Bool) : (baseUpdate v s).depann = v.depann := by
  unfold baseUpdate; repeat' (first | rfl | split | simp)

@[simp] lemma baseUpdate_dirRight (v : Vehicle) (s : Bool) :
    (baseUpdate v s).dirRight = v.dirRight := by
  unfold baseUpdate; repeat' (first | rfl | split | simp)

@[simp] lemma baseUpdate_moving (v : Vehicle) (s : Bool) : (baseUpdate v s).moving = v.moving := by
  unfold baseUpdate; repeat' (first | rfl | split | simp)

@[simp] lemma baseUpdate_speed (v : Vehicle) (s : Bool) : (baseUpdate v s).speed = v.speed := by
  unfold baseUpdate; repeat' (first | rfl | split | simp)

@[simp] lemma baseUpdate_isCrashed (v : Vehicle) (s : Bool) :
    (baseUpdate v s).isCrashed = v.isCrashed := by
  unfold baseUpdate; repeat' (first | rfl | split | simp)

@[simp] lemma baseUpdate_toBeRemoved (v : Vehicle) (s : Bool) :
    (baseUpdate v s).toBeRemoved = v.toBeRemoved := by
  unfold baseUpdate; repeat' (first | rfl | split | simp)

@[simp] lemma baseUpdate_isReckless (v : Vehicle) (s : Bool) :
    (baseUpdate v s).isReckless = v.isReckless := by
  unfold baseUpdate; repeat' (first | rfl | split | simp)

@[simp] lemma baseUpdate_isAccidentTarget (v : Vehicle) (s : Bool) :
    (baseUpdate v s).isAccidentTarget = v.isAccidentTarget := by
  unfold baseUpdate; repeat' (first | rfl | split | simp)

@[simp] lemma baseUpdate_isTowed (v : Vehicle) (s : Bool) :
    (baseUpdate v s).isTowed = v.isTowed := by
  unfold baseUpdate; repeat' (first | rfl | split | simp)

@[simp] lemma baseUpdate_laneLock (v : Vehicle) (s : Bool) :
    (baseUpdate v s).laneLock = v.laneLock := by
  unfold baseUpdate; repeat' (first | rfl | split | simp)

@[simp] lemma baseUpdate_changedLane (v : Vehicle) (s : Bool) :
    (baseUpdate v s).changedLane = v.changedLane := by
  unfold baseUpdate; repeat' (first | rfl | split | simp)

@[simp] lemma baseUpdate_towOffsetX (v : Vehicle) (s : Bool) :
    (baseUpdate v s).towOffsetX = v.towOffsetX := by
  unfold baseUpdate; repeat' (first | rfl | split | simp)

@[simp] lemma baseUpdate_ambState (v : Vehicle) (s : Bool) :
    (baseUpdate v s).ambState = v.ambState := by
  unfold baseUpdate; repeat' (first | rfl | split | simp)

@[simp] lemma baseUpdate_hasPickedUp (v : Vehicle) (s : Bool) :
    (baseUpdate v s).hasPickedUp = v.hasPickedUp := by
  unfold baseUpdate; repeat' (first | rfl | split | simp)

@[simp] lemma baseUpdate_targetY (v : Vehicle) (s : Bool) :
    (baseUpdate v s).targetY = v.targetY := by
  unfold baseUpdate; repeat' (first | rfl | split | simp)

@[simp] lemma ambUpdate_idv (v : Vehicle) (d : ℚ) (s : Bool) :
    (ambUpdate v d s).idv = v.idv := by
  cases hv : v.ambState <;> simp only [ambUpdate, hv] <;> repeat' (first | rfl | split | simp)

@[simp] lemma ambUpdate_ambul (v : Vehicle) (d : ℚ) (s : Bool) :
    (ambUpdate v d s).ambul = v.ambul := by
  cases hv : v.ambState <;> simp only [ambUpdate, hv] <;> repeat' (first | rfl | split | simp)

@[simp] lemma ambUpdate_depann (v : Vehicle) (d : ℚ) (s : Bool) :
    (ambUpdate v d s).depann = v.depann := by
  cases hv : v.ambState <;> simp only [ambUpdate, hv] <;> repeat' (first | rfl | split | simp)

@[simp] lemma ambUpdate_isCrashed (v : Vehicle) (d : ℚ) (s : Bool) :
    (ambUpdate v d s).isCrashed = v.isCrashed := by
  cases hv : v.ambState <;> simp only [ambUpdate, hv] <;> repeat' (first | rfl | split | simp)

@[simp] lemma ambUpdate_toBeRemoved (v : Vehicle) (d : ℚ) (s : Bool) :
    (ambUpdate v d s).toBeRemoved = v.toBeRemoved := by
  cases hv : v.ambState <;> simp only [ambUpdate, hv] <;> repeat' (first | rfl | split | simp)

@[simp] lemma ambUpdate_isReckless (v : Vehicle) (d : ℚ) (s : Bool) :
    (ambUpdate v d s).isReckless = v.isReckless := by
  cases hv : v.ambState <;> simp only [ambUpdate, hv] <;> repeat' (first | rfl | split | simp)

@[simp] lemma ambUpdate_isAccidentTarget (v : Vehicle) (d : ℚ) (s : Bool) :
    (ambUpdate v d s).isAccidentTarget = v.isAccidentTarget := by
  cases hv : v.ambState <;> simp only [ambUpdate, hv] <;> repeat' (first | rfl | split | simp)

@[simp] lemma ambUpdate_isTowed (v : Vehicle) (d : ℚ) (s : Bool) :
    (ambUpdate v d s).isTowed = v.isTowed := by
  cases hv : v.ambState <;> simp only [ambUpdate, hv] <;> repeat' (first | rfl | split | simp)

@[simp] lemma ambUpdate_laneLock (v : Vehicle) (d : ℚ) (s : Bool) :
    (ambUpdate v d s).laneLock = v.laneLock := by
  cases hv : v.ambState <;> simp only [ambUpdate, hv] <;> repeat' (first | rfl | split | simp)

@[simp] lemma ambUpdate_changedLane (v : Vehicle) (d : ℚ) (s : Bool) :
    (ambUpdate v d s).changedLane = v.changedLane := by
  cases hv : v.ambState <;> simp only [ambUpdate, hv] <;> repeat' (first | rfl | split | simp)

@[simp] lemma ambUpdate_towOffsetX (v : Vehicle) (d : ℚ) (s : Bool) :
    (ambUpdate v d s).towOffsetX = v.towOffsetX := by
  cases hv : v.ambState <;> simp only [ambUpdate, hv] <;> repeat' (first | rfl | split | simp)

@[simp] lemma ambUpdate_speed (v : Vehicle) (d : ℚ) (s : Bool) :
    (ambUpdate v d s).speed = v.speed := by
  cases hv : v.ambState <;> simp only [ambUpdate, hv] <;> repeat' (first | rfl | split | simp)

@[simp] lemma ambUpdate_dirRight (v : Vehicle) (d : ℚ) (s : Bool) :
    (ambUpdate v d s).dirRight = v.dirRight := by
  cases hv : v.ambState <;> simp only [ambUpdate, hv] <;> repeat' (first | rfl | split | simp)

@[simp] lemma ambUpdate_moving (v : Vehicle) (d : ℚ) (s : Bool) :
    (ambUpdate v d s).moving = v.moving := by
  cases hv : v.ambState <;> simp only [ambUpdate, hv] <;> repeat' (first | rfl | split | simp)

@[simp] lemma ambUpdate_hasPickedUp (v : Vehicle) (d : ℚ) (s : Bool) :
    (ambUpdate v d s).hasPickedUp = v.hasPickedUp := by
  cases hv : v.ambState <;> simp only [ambUpdate, hv] <;> repeat' (first | rfl | split | simp)

@[simp] lemma depUpdate_idv (v : Vehicle) (d : ℚ) : (depUpdate v d).idv = v.idv := by
  unfold depUpdate; repeat' (first | rfl | split | simp)

@[simp] lemma depUpdate_ambul (v : Vehicle) (d : ℚ) : (depUpdate v d).ambul = v.ambul := by
  unfold depUpdate; repeat' (first | rfl | split | simp)

@[simp] lemma depUpdate_depann (v : Vehicle) (d : ℚ) : (depUpdate v d).depann = v.depann := by
  unfold depUpdate; repeat' (first | rfl | split | simp)

@[simp] lemma depUpdate_isCrashed (v : Vehicle) (d : ℚ) :
    (depUpdate v d).isCrashed = v.isCrashed := by
  unfold depUpdate; repeat' (first | rfl | split | simp)

@[simp] lemma depUpdate_toBeRemoved (v : Vehicle) (d : ℚ) :
    (depUpdate v d).toBeRemoved = v.toBeRemoved := by
  unfold depUpdate; repeat' (first | rfl | split | simp)

@[simp] lemma depUpdate_isReckless (v : Vehicle) (d : ℚ) :
    (depUpdate v d).isReckless = v.isReckless := by
  unfold depUpdate; repeat' (first | rfl | split | simp)

@[simp] lemma depUpdate_isAccidentTarget (v : Vehicle) (d : ℚ) :
    (depUpdate v d).isAccidentTarget = v.isAccidentTarget := by
  unfold depUpdate; repeat' (first | rfl | split | simp)

@[simp] lemma depUpdate_isTowed (v : Vehicle) (d : ℚ) :
    (depUpdate v d).isTowed = v.isTowed := by
  unfold depUpdate; repeat' (first | rfl | split | simp)

@[simp] lemma depUpdate_laneLock (v : Vehicle) (d : ℚ) :
    (depUpdate v d).laneLock = v.laneLock := by
  unfold depUpdate; repeat' (first | rfl | split | simp)

@[simp] lemma depUpdate_changedLane (v : Vehicle) (d : ℚ) :
    (depUpdate v d).changedLane = v.changedLane := by
  unfold depUpdate; repeat' (first | rfl | split | simp)

@[simp] lemma depUpdate_towOffsetX (v : Vehicle) (d : ℚ) :
    (depUpdate v d).towOffsetX = v.towOffsetX := by
  unfold depUpdate; repeat' (first | rfl | split | simp)

@[simp] lemma depUpdate_speed (v : Vehicle) (d : ℚ) : (depUpdate v d).speed = v.speed := by
  unfold depUpdate; repeat' (first | rfl | split | simp)

@[simp] lemma depUpdate_dirRight (v : Vehicle) (d : ℚ) :
    (depUpdate v d).dirRight = v.dirRight := by
  unfold depUpdate; repeat' (first | rfl | split | simp)

@[simp] lemma depUpdate_moving (v : Vehicle) (d : ℚ) : (depUpdate v d).moving = v.moving := by
  unfold depUpdate; repeat' (first | rfl | split | simp)

@[simp] lemma dispatchUpdate_idv (v : Vehicle) (d : ℚ) (s : Bool) :
    (dispatchUpdate v d s).idv = v.idv := by
  unfold dispatchUpdate; split_ifs <;> simp

@[simp] lemma dispatchUpdate_ambul (v : Vehicle) (d : ℚ) (s : Bool) :
    (dispatchUpdate v d s).ambul = v.ambul := by
  unfold dispatchUpdate; split_ifs <;> simp

@[simp] lemma dispatchUpdate_depann (v : Vehicle) (d : ℚ) (s : Bool) :
    (dispatchUpdate v d s).depann = v.depann := by
  unfold dispatchUpdate; split_ifs <;> simp

@[simp] lemma dispatchUpdate_isCrashed (v : Vehicle) (d : ℚ) (s : Bool) :
    (dispatchUpdate v d s).isCrashed = v.isCrashed := by
  unfold dispatchUpdate; split_ifs <;> simp

@[simp] lemma dispatchUpdate_toBeRemoved (v : Vehicle) (d : ℚ) (s : Bool) :
    (dispatchUpdate v d s).toBeRemoved = v.toBeRemoved := by
  unfold dispatchUpdate; split_ifs <;> simp

@[simp] lemma dispatchUpdate_isReckless (v : Vehicle) (d : ℚ) (s : Bool) :
    (dispatchUpdate v d s).isReckless = v.isReckless := by
  unfold dispatchUpdate; split_ifs <;> simp

@[simp] lemma dispatchUpdate_isAccidentTarget (v : Vehicle) (d : ℚ) (s : Bool) :
    (dispatchUpdate v d s).isAccidentTarget = v.isAccidentTarget := by
  unfold dispatchUpdate; split_ifs <;> simp

@[simp] lemma dispatchUpdate_isTowed (v : Vehicle) (d : ℚ) (s : Bool) :
    (dispatchUpdate v d s).isTowed = v.isTowed := by
  unfold dispatchUpdate; split_ifs <;> simp

@[simp] lemma dispatchUpdate_laneLock (v : Vehicle) (d : ℚ) (s : Bool) :
    (dispatchUpdate v d s).laneLock = v.laneLock := by
  unfold dispatchUpdate; split_ifs <;> simp

@[simp] lemma dispatchUpdate_changedLane (v : Vehicle) (d : ℚ) (s : Bool) :
    (dispatchUpdate v d s).changedLane = v.changedLane := by
  unfold dispatchUpdate; split_ifs <;> simp

@[simp] lemma dispatchUpdate_towOffsetX (v : Vehicle) (d : ℚ) (s : Bool) :
    (dispatchUpdate v d s).towOffsetX = v.towOffsetX := by
  unfold dispatchUpdate; split_ifs <;> simp

end Vehicle

@[simp] lemma dodge_x (v : Vehicle) : (dodge v).x = v.x := rfl

@[simp] lemma dodge_y (v : Vehicle) : (dodge v).y = v.y := rfl

@[simp] lemma dodge_idv (v : Vehicle) : (dodge v).idv = v.idv := rfl

@[simp] lemma dodge_ambul (v : Vehicle) : (dodge v).ambul = v.ambul := rfl

@[simp] lemma dodge_depann (v : Vehicle) : (dodge v).depann = v.depann := rfl

@[simp] lemma dodge_isTowed (v : Vehicle) : (dodge v).isTowed = v.isTowed := rfl

@[simp] lemma dodge_isCrashed (v : Vehicle) : (dodge v).isCrashed = v.isCrashed := rfl

@[simp] lemma dodge_isReckless (v : Vehicle) : (dodge v).isReckless = v.isReckless := rfl

@[simp] lemma dodge_isAccidentTarget (v : Vehicle) :
    (dodge v).isAccidentTarget = v.isAccidentTarget := rfl

@[simp] lemma dodge_toBeRemoved (v : Vehicle) : (dodge v).toBeRemoved = v.toBeRemoved := rfl

@[simp] lemma dodge_towOffsetX (v : Vehicle) : (dodge v).towOffsetX = v.towOffsetX := rfl

@[simp] lemma dodge_laneLock (v : Vehicle) : (dodge v).laneLock = v.laneLock := rfl

@[simp] lemma dodge_speed (v : Vehicle) : (dodge v).speed = v.speed := rfl

@[simp] lemma dodge_dirRight (v : Vehicle) : (dodge v).dirRight = v.dirRight := rfl

@[simp] lemma dodge_moving (v : Vehicle) : (dodge v).moving = v.moving := rfl

@[simp] lemma dodge_forcedStop (v : Vehicle) : (dodge v).forcedStop = v.forcedStop := rfl

/-- `tryYield` either leaves the vehicle alone or dodges it. -/
lemma tryYield_cases (vs : List Vehicle) (e : Option ℕ) (v : Vehicle) :
    tryYield vs e v = v ∨ tryYield vs e v = dodge v := by
  unfold tryYield
  rcases e with _ | eid
  · exact Or.inl rfl
  · rcases h : findV vs eid with _ | ev
    · simp [h]
    · simp only [h]
      split_ifs <;> simp

/-- `applyAvoid` either leaves the vehicle alone or dodges it. -/
lemma applyAvoid_cases (acc : Accident) (v : Vehicle) :
    applyAvoid acc v = v ∨ applyAvoid acc v = dodge v := by
  unfold applyAvoid; split_ifs <;> simp

@[simp] lemma tryYield_x (vs : List Vehicle) (e : Option ℕ) (v : Vehicle) :
    (tryYield vs e v).x = v.x := by
  rcases tryYield_cases vs e v with h | h <;> rw [h] <;> simp

@[simp] lemma tryYield_isTowed (vs : List Vehicle) (e : Option ℕ) (v : Vehicle) :
    (tryYield vs e v).isTowed = v.isTowed := by
  rcases tryYield_cases vs e v with h | h <;> rw [h] <;> simp

@[simp] lemma tryYield_isCrashed (vs : List Vehicle) (e : Option ℕ) (v : Vehicle) :
    (tryYield vs e v).isCrashed = v.isCrashed := by
  rcases tryYield_cases vs e v with h | h <;> rw [h] <;> simp

@[simp] lemma tryYield_isReckless (vs : List Vehicle) (e : Option ℕ) (v : Vehicle) :
    (tryYield vs e v).isReckless = v.isReckless := by
  rcases tryYield_cases vs e v with h | h <;> rw [h] <;> simp

@[simp] lemma tryYield_isAccidentTarget (vs : List Vehicle) (e : Option ℕ) (v : Vehicle) :
    (tryYield vs e v).isAccidentTarget = v.isAccidentTarget := by
  rcases tryYield_cases vs e v with h | h <;> rw [h] <;> simp

@[simp] lemma tryYield_idv (vs : List Vehicle) (e : Option ℕ) (v : Vehicle) :
    (tryYield vs e v).idv = v.idv := by
  rcases tryYield_cases vs e v with h | h <;> rw [h] <;> simp

@[simp] lemma tryYield_ambul (vs : List Vehicle) (e : Option ℕ) (v : Vehicle) :
    (tryYield vs e v).ambul = v.ambul := by
  rcases tryYield_cases vs e v with h | h <;> rw [h] <;> simp

@[simp] lemma tryYield_depann (vs : List Vehicle) (e : Option ℕ) (v : Vehicle) :
    (tryYield vs e v).depann = v.depann := by
  rcases tryYield_cases vs e v with h | h <;> rw [h] <;> simp

@[simp] lemma tryYield_toBeRemoved (vs : List Vehicle) (e : Option ℕ) (v : Vehicle) :
    (tryYield vs e v).toBeRemoved = v.toBeRemoved := by
  rcases tryYield_cases vs e v with h | h <;> rw [h] <;> simp

@[simp] lemma tryYield_towOffsetX (vs : List Vehicle) (e : Option ℕ) (v : Vehicle) :
    (tryYield vs e v).towOffsetX = v.towOffsetX := by
  rcases tryYield_cases vs e v with h | h <;> rw [h] <;> simp

@[simp] lemma tryYield_speed (vs : List Vehicle) (e : Option ℕ) (v : Vehicle) :
    (tryYield vs e v).speed = v.speed := by
  rcases tryYield_cases vs e v with h | h <;> rw [h] <;> simp

@[simp] lemma tryYield_moving (vs : List Vehicle) (e : Option ℕ) (v : Vehicle) :
    (tryYield vs e v).moving = v.moving := by
  rcases tryYield_cases vs e v with h | h <;> rw [h] <;> simp

@[simp] lemma tryYield_dirRight (vs : List Vehicle) (e : Option ℕ) (v : Vehicle) :
    (tryYield vs e v).dirRight = v.dirRight := by
  rcases tryYield_cases vs e v with h | h <;> rw [h] <;> simp

@[simp] lemma tryYield_forcedStop (vs : List Vehicle) (e : Option ℕ) (v : Vehicle) :
    (tryYield vs e v).forcedStop = v.forcedStop := by
  rcases tryYield_cases vs e v with h | h <;> rw [h] <;> simp

@[simp] lemma applyAvoid_x (acc : Accident) (v : Vehicle) : (applyAvoid acc v).x = v.x := by
  rcases applyAvoid_cases acc v with h | h <;> rw [h] <;> simp

@[simp] lemma applyAvoid_isTowed (acc : Accident) (v : Vehicle) :
    (applyAvoid acc v).isTowed = v.isTowed := by
  rcases applyAvoid_cases acc v with h | h <;> rw [h] <;> simp

@[simp] lemma applyAvoid_isCrashed (acc : Accident) (v : Vehicle) :
    (applyAvoid acc v).isCrashed = v.isCrashed := by
  rcases applyAvoid_cases acc v with h | h <;> rw [h] <;> simp

@[simp] lemma applyAvoid_isReckless (acc : Accident) (v : Vehicle) :
    (applyAvoid acc v).isReckless = v.isReckless := by
  rcases applyAvoid_cases acc v with h | h <;> rw [h] <;> simp

@[simp] lemma applyAvoid_isAccidentTarget (acc : Accident) (v : Vehicle) :
    (applyAvoid acc v).isAccidentTarget = v.isAccidentTarget := by
  rcases applyAvoid_cases acc v with h | h <;> rw [h] <;> simp

@[simp] lemma applyAvoid_idv (acc : Accident) (v : Vehicle) :
    (applyAvoid acc v).idv = v.idv := by
  rcases applyAvoid_cases acc v with h | h <;> rw [h] <;> simp

@[simp] lemma applyAvoid_ambul (acc : Accident) (v : Vehicle) :
    (applyAvoid acc v).ambul = v.ambul := by
  rcases applyAvoid_cases acc v with h | h <;> rw [h] <;> simp

@[simp] lemma applyAvoid_depann (acc : Accident) (v : Vehicle) :
    (applyAvoid acc v).depann = v.depann := by
  rcases applyAvoid_cases acc v with h | h <;> rw [h] <;> simp

@[simp] lemma applyAvoid_toBeRemoved (acc : Accident) (v : Vehicle) :
    (applyAvoid acc v).toBeRemoved = v.toBeRemoved := by
  rcases applyAvoid_cases acc v with h | h <;> rw [h] <;> simp

@[simp] lemma applyAvoid_towOffsetX (acc : Accident) (v : Vehicle) :
    (applyAvoid acc v).towOffsetX = v.towOffsetX := by
  rcases applyAvoid_cases acc v with h | h <;> rw [h] <;> simp

@[simp] lemma applyAvoid_speed (acc : Accident) (v : Vehicle) :
    (applyAvoid acc v).speed = v.speed := by
  rcases applyAvoid_cases acc v with h | h <;> rw [h] <;> simp

@[simp] lemma applyAvoid_moving (acc : Accident) (v : Vehicle) :
    (applyAvoid acc v).moving = v.moving := by
  rcases applyAvoid_cases acc v with h | h <;> rw [h] <;> simp

@[simp] lemma applyAvoid_dirRight (acc : Accident) (v : Vehicle) :
    (applyAvoid acc v).dirRight = v.dirRight := by
  rcases applyAvoid_cases acc v with h | h <;> rw [h] <;> simp

@[simp] lemma applyAvoid_forcedStop (acc : Accident) (v : Vehicle) :
    (applyAvoid acc v).forcedStop = v.forcedStop := by
  rcases applyAvoid_cases acc v with h | h <;> rw [h] <;> simp

/-- The yield/avoid preprocessing never changes the tow flag. -/
@[simp] lemma bottomPre_isTowed (acc : Accident) (ambId towId : Option ℕ)
    (vs : List Vehicle) (v : Vehicle) :
    (bottomPre acc ambId towId vs v).isTowed = v.isTowed := by
  unfold bottomPre; repeat' (first | rfl | split | simp)

/-- The yield/avoid preprocessing never changes the tow-truck flag. -/
@[simp] lemma bottomPre_depann (acc : Accident) (ambId towId : Option ℕ)
    (vs : List Vehicle) (v : Vehicle) :
    (bottomPre acc ambId towId vs v).depann = v.depann := by
  unfold bottomPre; repeat' (first | rfl | split | simp)

/-! ## Claim C8: traffic light phase toggling -/

/-- C8: for every traffic light and every `advance(deltaTime)` call, the
red/green phase flips exactly when the accumulated timer reaches `cycleTime`
and never before, and the timer is reset to 0 on each flip (applied to every
state in a call sequence, this settles the claim for all sequences). -/
theorem trafficLight_toggle_exact (l : TrafficLight) (d : ℚ) :
    ((l.update d).red ≠ l.red ↔ l.timer + d ≥ l.cycleTime) ∧
    (l.timer + d ≥ l.cycleTime → (l.update d).red = !l.red ∧ (l.update d).timer = 0) ∧
    (l.timer + d < l.cycleTime →
      (l.update d).red = l.red ∧ (l.update d).timer = l.timer + d) := by
  simp only [TrafficLight.update]
  split_ifs with h
  · refine ⟨?_, fun _ => ⟨rfl, rfl⟩, fun hlt => absurd h (not_le.mpr hlt)⟩
    simp only [h, iff_true]
    cases l.red <;> simp
  · refine ⟨?_, fun hge => absurd hge h, fun _ => ⟨rfl, rfl⟩⟩
    simp [h]

/-- Witness for C8: the top light constructed by the simulation flips after
exactly 5 accumulated seconds and its timer resets. -/
theorem trafficLight_toggle_exact_witness :
    initState.lightTop.timer + 5 ≥ initState.lightTop.cycleTime ∧
    ((initState.lightTop.update 5).red = !initState.lightTop.red ∧
      (initState.lightTop.update 5).timer = 0) :=
  ⟨by norm_num [initState],
    (trafficLight_toggle_exact initState.lightTop 5).2.1 (by norm_num [initState])⟩

/-! ## Claim C7: ambulance approach and wait at the accident -/

/-- C7: a left-moving ambulance in `TO_ACCIDENT` moves toward decreasing x
each step; on the step where its x first reaches `accidentX + 160` or less it
snaps to exactly `accidentX + 160`, enters `WAIT_AT_ACCIDENT` with the timer
reset to 0; in `WAIT_AT_ACCIDENT` it stays stationary accumulating the timer,
and transitions to `TO_HOSPITAL` exactly once the timer reaches 5 seconds.
(`dirRight = false` holds for every ambulance the program constructs.) -/
theorem ambulance_toAccident_arrival (v : Vehicle) (delta : ℚ) (s : Bool)
    (hdir : v.dirRight = false) :
    (v.ambState = AmbState.TO_ACCIDENT →
      (v.x - v.speed ≤ v.accidentX + 160 →
        (v.ambUpdate delta s).x = v.accidentX + 160 ∧
        (v.ambUpdate delta s).ambState = AmbState.WAIT_AT_ACCIDENT ∧
        (v.ambUpdate delta s).stateTimer = 0) ∧
      (v.accidentX + 160 < v.x - v.speed →
        (v.ambUpdate delta s).x = v.x - v.speed ∧
        (v.ambUpdate delta s).ambState = AmbState.TO_ACCIDENT)) ∧
    (v.ambState = AmbState.WAIT_AT_ACCIDENT →
      (v.ambUpdate delta s).x = v.x ∧
      (v.stateTimer + delta ≥ 5 →
        (v.ambUpdate delta s).ambState = AmbState.TO_HOSPITAL) ∧
      (v.stateTimer + delta < 5 →
        (v.ambUpdate delta s).ambState = AmbState.WAIT_AT_ACCIDENT ∧
        (v.ambUpdate delta s).stateTimer = v.stateTimer + delta)) := by
  constructor
  · intro hst
    simp only [Vehicle.ambUpdate, hst, hdir, if_false, Bool.false_eq_true]
    constructor
    · intro hle
      rw [if_pos (by simpa using hle)]
      simp
    · intro hgt
      rw [if_neg (by simpa using not_le.mpr hgt)]
      simp
  · intro hst
    simp only [Vehicle.ambUpdate, hst]
    refine ⟨?_, fun hge => ?_, fun hlt => ?_⟩
    · split_ifs <;> simp
    · rw [if_pos (by simpa using hge)]
      simp
    · rw [if_neg (by simpa using not_le.mpr hlt)]
      simp

/-- Witness for C7: a concrete left-moving ambulance at `x = 500` with speed
4.5 and accident at 100 crosses the `accidentX + 160` line and snaps to 260
entering the wait state. -/
theorem ambulance_toAccident_arrival_witness :
    ambWitnessV.dirRight = false ∧ ambWitnessV.ambState = AmbState.TO_ACCIDENT ∧
    ambWitnessV.x - ambWitnessV.speed ≤ ambWitnessV.accidentX + 160 ∧
    ((ambWitnessV.ambUpdate (1/60) false).x = ambWitnessV.accidentX + 160 ∧
      (ambWitnessV.ambUpdate (1/60) false).ambState = AmbState.WAIT_AT_ACCIDENT ∧
      (ambWitnessV.ambUpdate (1/60) false).stateTimer = 0) :=
  ⟨rfl, rfl, by norm_num [ambWitnessV, mkAmbulance, mkCar],
    ((ambulance_toAccident_arrival ambWitnessV (1/60) false rfl).1
      rfl).1 (by norm_num [ambWitnessV, mkAmbulance, mkCar])⟩

/-! ## Claim C9: silent no-op calls -/

/-- C9: calling for a tow truck without an active accident leaves the whole
simulation state unchanged, and triggering an accident while one is pending
or active leaves the whole simulation state unchanged; both are total
functions that signal nothing. -/
theorem calls_are_silent_noops (s : SimState) :
    (s.currentAccident.active = false → callDepannage s = s) ∧
    (s.currentAccident.pending = true ∨ s.currentAccident.active = true →
      triggerState s = s) := by
  constructor
  · intro h
    unfold callDepannage
    rw [if_pos (by simp [h])]
  · intro h
    unfold triggerState applyTrigger
    have hg : s.currentAccident.active = true ∨ s.currentAccident.pending = true := by
      rcases h with h | h
      · exact Or.inr h
      · exact Or.inl h
    rw [if_pos (by simpa using hg)]

/-- Witness for C9: at the initial state (no active accident) the tow-truck
call is a no-op, and at a state with an active accident the trigger call is a
no-op. -/
theorem calls_are_silent_noops_witness :
    callDepannage initState = initState ∧ triggerState stateWithActive = stateWithActive :=
  ⟨(calls_are_silent_noops initState).1 rfl,
    (calls_are_silent_noops stateWithActive).2 (Or.inr rfl)⟩

/-! ## Lemmas about id-based lookup and mutation -/

/-- A successful lookup returns a vehicle carrying the looked-up id. -/
lemma findV_eq_some_idv {vs : List Vehicle} {i : ℕ} {c : Vehicle}
    (h : findV vs i = some c) : c.idv = i := by
  have := List.find?_some h
  simpa using this

/-- Lookup commutes with an id-preserving map. -/
lemma findV_map (vs : List Vehicle) (g : Vehicle → Vehicle)
    (hg : ∀ v, (g v).idv = v.idv) (i : ℕ) :
    findV (vs.map g) i = (findV vs i).map g := by
  induction vs with
  | nil => rfl
  | cons u rest ih =>
      by_cases h : u.idv = i
      · simp [findV, List.find?_cons, hg u, h]
      · simpa [findV, List.find?_cons, hg u, h] using ih

/-- Lookup after `setV` at the same id applies the mutation. -/
lemma findV_setV_self (vs : List Vehicle) (i : ℕ) (f : Vehicle → Vehicle)
    (hf : ∀ v, (f v).idv = v.idv) :
    findV (setV vs i f) i = (findV vs i).map f := by
  unfold setV
  rw [findV_map]
  · cases h : findV vs i with
    | none => rfl
    | some c => simp [findV_eq_some_idv h]
  · intro v
    by_cases h : v.idv = i <;> simp [h, hf v]

/-- Lookup after `setV` at a different id is unchanged. -/
lemma findV_setV_ne (vs : List Vehicle) (i j : ℕ) (f : Vehicle → Vehicle)
    (hf : ∀ v, (f v).idv = v.idv) (hne : j ≠ i) :
    findV (setV vs i f) j = findV vs j := by
  unfold setV
  rw [findV_map]
  · cases h : findV vs j with
    | none => rfl
    | some c => simp [findV_eq_some_idv h, hne]
  · intro v
    by_cases h : v.idv = i <;> simp [h, hf v]

/-- Lookup of a non-ambulance id commutes through the crash broadcast to
ambulances. -/
lemma findV_assignAmbulances (vs : List Vehicle) (ax ay : ℚ) (i : ℕ) :
    findV (assignAmbulances vs ax ay) i =
      (findV vs i).map (fun v =>
        if v.ambul then
          { v with accidentX := ax, accidentY := ay, ambState := AmbState.TO_ACCIDENT,
                   targetY := ay }
        else v) := by
  unfold assignAmbulances
  apply findV_map
  intro v
  by_cases h : v.ambul <;> simp [h]

/-! ## Claim C1: the pending-accident collision resolution -/

/-- C1 (amended): in a frame where the accident is pending and both weak
references are live, if the rear-minus-front gap lies strictly within
`(-VEHICLE_WIDTH, VEHICLE_WIDTH - 10)` the accident becomes active in that
frame: both cars get `isCrashed = true` and `moving = false`, the rear car's
reckless flag is cleared, and the collision point is recorded at the front
car's position offset by half a vehicle width in x — `(front.x +
VEHICLE_WIDTH/2, front.y)`, not at the front car's position itself; if the
gap is outside the window, the stage returns the state unchanged.  (The two
referenced cars are never ambulances: the trigger excludes them.) -/
theorem pendingCollision_crash_transition (vs : List Vehicle) (acc : Accident)
    (i1 i2 : ℕ) (c1 c2 : Vehicle)
    (hp : acc.pending = true) (h1 : acc.car1 = some i1) (h2 : acc.car2 = some i2)
    (hf1 : findV vs i1 = some c1) (hf2 : findV vs i2 = some c2)
    (hne : i1 ≠ i2) (ha1 : c1.ambul = false) (ha2 : c2.ambul = false) :
    (c2.x - c1.x < VEHICLE_WIDTH - 10 ∧ c2.x - c1.x > -VEHICLE_WIDTH →
      (∃ w1, findV (pendingCollision vs acc).1 i1 = some w1 ∧
        w1.isCrashed = true ∧ w1.moving = false ∧ w1.x = c1.x ∧ w1.y = c1.y) ∧
      (∃ w2, findV (pendingCollision vs acc).1 i2 = some w2 ∧
        w2.isCrashed = true ∧ w2.moving = false ∧ w2.isReckless = false) ∧
      (pendingCollision vs acc).2.active = true ∧
      (pendingCollision vs acc).2.pending = false ∧
      (pendingCollision vs acc).2.x = c1.x + VEHICLE_WIDTH / 2 ∧
      (pendingCollision vs acc).2.y = c1.y) ∧
    (¬(c2.x - c1.x < VEHICLE_WIDTH - 10 ∧ c2.x - c1.x > -VEHICLE_WIDTH) →
      pendingCollision vs acc = (vs, acc)) := by
  have hg1 : ∀ w : Vehicle,
      ((fun v : Vehicle => { v with isCrashed := true, moving := false }) w).idv = w.idv :=
    fun w => rfl
  have hg2 : ∀ w : Vehicle,
      ((fun v : Vehicle =>
        { v with isCrashed := true, isReckless := false, moving := false }) w).idv =
        w.idv := fun w => rfl
  constructor
  · intro hgap
    unfold pendingCollision
    simp only [hp, h1, h2, hf1, hf2, eq_self_iff_true, if_true]
    rw [if_pos hgap]
    refine ⟨?_, ?_, rfl, rfl, rfl, rfl⟩
    · rw [findV_assignAmbulances, findV_setV_ne _ i2 i1 _ hg2 hne,
        findV_setV_self _ i1 _ hg1, hf1]
      refine ⟨{ c1 with isCrashed := true, moving := false }, ?_, rfl, rfl, rfl, rfl⟩
      simp [ha1]
    · rw [findV_assignAmbulances, findV_setV_self _ i2 _ hg2,
        findV_setV_ne _ i1 i2 _ hg1 (Ne.symm hne), hf2]
      refine ⟨{ c2 with isCrashed := true, isReckless := false, moving := false },
        ?_, rfl, rfl, rfl⟩
      simp [ha2]
  · intro hgap
    unfold pendingCollision
    simp only [hp, h1, h2, hf1, hf2, eq_self_iff_true, if_true]
    rw [if_neg hgap]

/-- C1 counterexample to the claim as stated: with a pending accident between
the fixture cars 50 units apart, the crash fires, but the recorded collision
point x is `145 = front.x + VEHICLE_WIDTH/2`, not the front vehicle's
position `x = 100` (which the update leaves unchanged). -/
theorem collisionPoint_not_front_position_cex :
    (pendingCollision cexPendingVs cexPendingAcc).2.active = true ∧
    (pendingCollision cexPendingVs cexPendingAcc).2.pending = false ∧
    ((findV (pendingCollision cexPendingVs cexPendingAcc).1 0).map Vehicle.x) = some 100 ∧
    (pendingCollision cexPendingVs cexPendingAcc).2.x = 145 ∧
    ((145 : ℚ) = 100 → False) := by
  refine ⟨?_, ?_, ?_, ?_, by norm_num⟩ <;>
    norm_num [pendingCollision, cexPendingVs, cexPendingAcc, cexFrontCar, cexRearCar,
      mkCar, findV, setV, assignAmbulances, VEHICLE_WIDTH, List.find?]

/-- Witness for the amended C1 theorem at the concrete fixture state. -/
theorem pendingCollision_crash_transition_witness :
    (∃ w1, findV (pendingCollision cexPendingVs cexPendingAcc).1 0 = some w1 ∧
      w1.isCrashed = true ∧ w1.moving = false ∧ w1.x = cexFrontCar.x ∧
      w1.y = cexFrontCar.y) ∧
    (∃ w2, findV (pendingCollision cexPendingVs cexPendingAcc).1 1 = some w2 ∧
      w2.isCrashed = true ∧ w2.moving = false ∧ w2.isReckless = false) ∧
    (pendingCollision cexPendingVs cexPendingAcc).2.active = true ∧
    (pendingCollision cexPendingVs cexPendingAcc).2.pending = false ∧
    (pendingCollision cexPendingVs cexPendingAcc).2.x =
      cexFrontCar.x + VEHICLE_WIDTH / 2 ∧
    (pendingCollision cexPendingVs cexPendingAcc).2.y = cexFrontCar.y :=
  (pendingCollision_crash_transition cexPendingVs cexPendingAcc 0 1
    cexFrontCar cexRearCar rfl rfl rfl rfl rfl (by norm_num) rfl rfl).1
    (by norm_num [cexFrontCar, cexRearCar, mkCar, VEHICLE_WIDTH])

/-! ## Claim C5: the lead-vehicle spacing property -/

/-- C5 counterexample to the claim as stated: after a full bottom traffic
pass on the fixture (leader held at the red light at `x = 610`, non-reckless
trailer starting 46 units behind the leader's rear edge), the trailer has
advanced to `x = 1487/2 = 743.5`, leaving a gap of `43.5 < SAFE_DISTANCE` to
the leader's rear edge `610 + VEHICLE_WIDTH = 700` — the claimed
post-pass invariant fails for a same-lane pair with a non-reckless trailer. -/
theorem spacing_invariant_cex :
    (cexSpacingOut.get? 0).map Vehicle.x = some 610 ∧
    (cexSpacingOut.get? 1).map Vehicle.x = some (1487/2) ∧
    (cexSpacingOut.get? 0).map Vehicle.targetY = some 290 ∧
    (cexSpacingOut.get? 1).map Vehicle.targetY = some 290 ∧
    (cexSpacingOut.get? 1).map Vehicle.isReckless = some false ∧
    ¬(1487/2 - (610 + VEHICLE_WIDTH) ≥ SAFE_DISTANCE) := by
  refine ⟨?_, ?_, ?_, ?_, ?_, by norm_num [VEHICLE_WIDTH, SAFE_DISTANCE]⟩ <;>
    norm_num [cexSpacingOut, runLoop, cexSpacingVs, cexLeaderCar, cexTrailerCar,
      bottomStep, bottomPre, tryYield, applyAvoid, spacingStopB, accNone, cexLightB,
      Vehicle.baseUpdate, Vehicle.laneSmooth, TrafficLight.stopLineX, mkCar,
      VEHICLE_WIDTH, SAFE_DISTANCE, SCREEN_WIDTH, ROAD_Y_BOTTOM, ROAD_HEIGHT,
      List.range_succ]

/-- C5 (amended): the traffic pass does not re-establish a `SAFE_DISTANCE`
gap; what the code guarantees is that a violation forces a stop: on either
road, when a plain non-reckless car's spacing scan (evaluated on the
vehicle's state at its turn in the pass) detects a same-lane leader closer
than `SAFE_DISTANCE`, that car's forced-stop flag is set and its x does not
change in that step. -/
theorem spacing_violation_forces_stop :
    (∀ (acc : Accident) (ambId towId : Option ℕ) (delta : ℚ) (light : TrafficLight)
        (vs : List Vehicle) (i : ℕ) (v : Vehicle),
      vs.get? i = some v →
      v.isCrashed = false → v.isTowed = false → v.ambul = false → v.depann = false →
      v.isReckless = false →
      spacingStopB vs i (bottomPre acc ambId towId vs v) = true →
      ∃ w, (bottomStep acc ambId towId delta light vs i).get? i = some w ∧
        w.forcedStop = true ∧ w.x = v.x) ∧
    (∀ (delta : ℚ) (light : TrafficLight) (vs : List Vehicle) (i : ℕ) (v : Vehicle),
      vs.get? i = some v →
      v.ambul = false → v.depann = false → v.isReckless = false →
      spacingStopT vs i v = true →
      ∃ w, (topStep delta light vs i).get? i = some w ∧
        w.forcedStop = true ∧ w.x = v.x) := by
  have hlt : ∀ {vs : List Vehicle} {i : ℕ} {v : Vehicle},
      vs.get? i = some v → i < vs.length := by
    intro vs i v h
    rcases List.get?_eq_some.mp h with ⟨hl, _⟩
    exact hl
  constructor
  · intro acc ambId towId delta light vs i v hv hcr htw ham hdep hrk hsp
    have hpre_rk : (bottomPre acc ambId towId vs v).isReckless = false := by
      unfold bottomPre
      split_ifs <;> simp_all
    have hpre_x : (bottomPre acc ambId towId vs v).x = v.x := by
      unfold bottomPre
      split_ifs <;> simp_all
    have hpre_cr : (bottomPre acc ambId towId vs v).isCrashed = false := by
      unfold bottomPre
      split_ifs <;> simp_all
    have hpre_tw : (bottomPre acc ambId towId vs v).isTowed = false := by
      unfold bottomPre
      split_ifs <;> simp_all
    unfold bottomStep
    simp only [hv]
    rw [if_neg (by simp [hcr, htw]), if_neg (by simp [ham, hdep])]
    set p := bottomPre acc ambId towId vs v with hpdef
    have hstop :
        (if p.isReckless then false
         else (light.red && decide (|p.x - light.stopLineX true| < 50)) || spacingStopB vs i p)
          = true := by
      rw [if_neg (by simp [hpre_rk])]
      simp [hsp]
    rw [hstop]
    refine ⟨({ p with forcedStop := true } : Vehicle).baseUpdate true,
      List.get?_set_eq_of_lt _ (hlt hv), ?_, ?_⟩
    · unfold Vehicle.baseUpdate
      rw [if_neg (by simp [hpre_cr]), if_neg (by simp [hpre_tw])]
      simp [hpre_rk]
    · unfold Vehicle.baseUpdate
      rw [if_neg (by simp [hpre_cr]), if_neg (by simp [hpre_tw])]
      simp [hpre_rk, hpre_x]
  · intro delta light vs i v hv ham hdep hrk hsp
    unfold topStep
    simp only [hv]
    have hstop :
        ((light.red && decide (|v.x - light.stopLineX false| < 50)) || spacingStopT vs i v)
          = true := by
      simp [hsp]
    rw [hstop]
    refine ⟨({ v with forcedStop := true } : Vehicle).dispatchUpdate delta true,
      List.get?_set_eq_of_lt _ (hlt hv), ?_, ?_⟩
    · unfold Vehicle.dispatchUpdate
      rw [if_neg (by simp [ham]), if_neg (by simp [hdep])]
      unfold Vehicle.baseUpdate
      split_ifs <;> simp_all
    · unfold Vehicle.dispatchUpdate
      rw [if_neg (by simp [ham]), if_neg (by simp [hdep])]
      unfold Vehicle.baseUpdate
      split_ifs <;> simp_all

/-! ## Claim C4: safe removal discipline of the pruning pass -/

@[simp] lemma pruneNullRefs_car1 (acc : Accident) (i : ℕ) :
    (pruneNullRefs acc i).car1 = if acc.car1 = some i then none else acc.car1 := by
  unfold pruneNullRefs; split_ifs <;> rfl

@[simp] lemma pruneNullRefs_car2 (acc : Accident) (i : ℕ) :
    (pruneNullRefs acc i).car2 = if acc.car2 = some i then none else acc.car2 := by
  unfold pruneNullRefs; split_ifs <;> rfl

@[simp] lemma pruneNullRefs_pending (acc : Accident) (i : ℕ) :
    (pruneNullRefs acc i).pending = acc.pending := by
  unfold pruneNullRefs; split_ifs <;> rfl

@[simp] lemma pruneNullRefs_active (acc : Accident) (i : ℕ) :
    (pruneNullRefs acc i).active = acc.active := by
  unfold pruneNullRefs; split_ifs <;> rfl

/-- A `pruneStep` never introduces a reference: a surviving `car1` value was
already there. -/
lemma pruneStep_car1_some {acc : Accident} {u : Vehicle} {i : ℕ}
    (h : (pruneStep acc u).2.car1 = some i) : acc.car1 = some i := by
  have h2 : (pruneAccUpdate acc u).car1 = some i := h
  unfold pruneAccUpdate at h2
  split_ifs at h2 <;> simp_all <;> split_ifs at h2 <;> simp_all

/-- A `pruneStep` never introduces a reference: a surviving `car2` value was
already there. -/
lemma pruneStep_car2_some {acc : Accident} {u : Vehicle} {i : ℕ}
    (h : (pruneStep acc u).2.car2 = some i) : acc.car2 = some i := by
  have h2 : (pruneAccUpdate acc u).car2 = some i := h
  unfold pruneAccUpdate at h2
  split_ifs at h2 <;> simp_all <;> split_ifs at h2 <;> simp_all

/-- A `pruneStep` never raises the pending flag. -/
lemma pruneStep_pending {acc : Accident} {u : Vehicle}
    (h : (pruneStep acc u).2.pending = true) : acc.pending = true := by
  have h2 : (pruneAccUpdate acc u).pending = true := h
  unfold pruneAccUpdate at h2
  split_ifs at h2 <;> simp_all

/-- A `pruneStep` never raises the active flag. -/
lemma pruneStep_active {acc : Accident} {u : Vehicle}
    (h : (pruneStep acc u).2.active = true) : acc.active = true := by
  have h2 : (pruneAccUpdate acc u).active = true := h
  unfold pruneAccUpdate at h2
  split_ifs at h2 <;> simp_all

/-- The whole pruning pass never introduces a `car1` reference. -/
lemma pruneBottom_car1_some {vs : List Vehicle} {acc : Accident} {i : ℕ}
    (h : (pruneBottom vs acc).2.car1 = some i) : acc.car1 = some i := by
  induction vs generalizing acc with
  | nil => exact h
  | cons u rest ih => exact pruneStep_car1_some (ih h)

/-- The whole pruning pass never introduces a `car2` reference. -/
lemma pruneBottom_car2_some {vs : List Vehicle} {acc : Accident} {i : ℕ}
    (h : (pruneBottom vs acc).2.car2 = some i) : acc.car2 = some i := by
  induction vs generalizing acc with
  | nil => exact h
  | cons u rest ih => exact pruneStep_car2_some (ih h)

/-- The whole pruning pass never raises the pending flag. -/
lemma pruneBottom_pending {vs : List Vehicle} {acc : Accident}
    (h : (pruneBottom vs acc).2.pending = true) : acc.pending = true := by
  induction vs generalizing acc with
  | nil => exact h
  | cons u rest ih => exact pruneStep_pending (ih h)

/-- The whole pruning pass never raises the active flag. -/
lemma pruneBottom_active {vs : List Vehicle} {acc : Accident}
    (h : (pruneBottom vs acc).2.active = true) : acc.active = true := by
  induction vs generalizing acc with
  | nil => exact h
  | cons u rest ih => exact pruneStep_active (ih h)

/-- When a `pruneStep` removes a non-tow-truck vehicle, and (if the accident
is outstanding) that vehicle carries one of the reckless/target/crashed
flags, the resulting record does not reference the vehicle and is neither
pending nor active. -/
lemma pruneStep_removes_ref {acc : Accident} {u : Vehicle}
    (hdep : u.depann = false) (hrem : (pruneStep acc u).1 = true)
    (hflag : acc.pending = true ∨ acc.active = true →
      u.isReckless = true ∨ u.isAccidentTarget = true ∨ u.isCrashed = true) :
    (pruneStep acc u).2.car1 ≠ some u.idv ∧ (pruneStep acc u).2.car2 ≠ some u.idv ∧
    (pruneStep acc u).2.pending = false ∧ (pruneStep acc u).2.active = false := by
  have hrm : pruneRemoves u = true := hrem
  show (pruneAccUpdate acc u).car1 ≠ some u.idv ∧ (pruneAccUpdate acc u).car2 ≠ some u.idv ∧
    (pruneAccUpdate acc u).pending = false ∧ (pruneAccUpdate acc u).active = false
  unfold pruneRemoves at hrm
  unfold pruneAccUpdate
  split_ifs at hrm ⊢ <;> (try simp_all) <;> split_ifs <;> simp_all

/-- A `pruneStep` on a vehicle with a different id either keeps a `car1`
reference intact or (via the plain-removal branch) nulls both references and
resets the accident. -/
lemma pruneStep_other_car1 {acc : Accident} {u : Vehicle} {i : ℕ}
    (hne : u.idv ≠ i) (h1 : acc.car1 = some i) :
    (pruneStep acc u).2.car1 = some i ∨
    ((pruneStep acc u).2.car1 = none ∧ (pruneStep acc u).2.car2 = none ∧
      (pruneStep acc u).2.pending = false ∧ (pruneStep acc u).2.active = false) := by
  have hne2 : i ≠ u.idv := Ne.symm hne
  show (pruneAccUpdate acc u).car1 = some i ∨
    ((pruneAccUpdate acc u).car1 = none ∧ (pruneAccUpdate acc u).car2 = none ∧
      (pruneAccUpdate acc u).pending = false ∧ (pruneAccUpdate acc u).active = false)
  unfold pruneAccUpdate
  split_ifs <;> simp_all

/-- A `pruneStep` on a vehicle with a different id either keeps a `car2`
reference intact or nulls both references and resets the accident. -/
lemma pruneStep_other_car2 {acc : Accident} {u : Vehicle} {i : ℕ}
    (hne : u.idv ≠ i) (h2 : acc.car2 = some i) :
    (pruneStep acc u).2.car2 = some i ∨
    ((pruneStep acc u).2.car1 = none ∧ (pruneStep acc u).2.car2 = none ∧
      (pruneStep acc u).2.pending = false ∧ (pruneStep acc u).2.active = false) := by
  have hne2 : i ≠ u.idv := Ne.symm hne
  show (pruneAccUpdate acc u).car2 = some i ∨
    ((pruneAccUpdate acc u).car1 = none ∧ (pruneAccUpdate acc u).car2 = none ∧
      (pruneAccUpdate acc u).pending = false ∧ (pruneAccUpdate acc u).active = false)
  unfold pruneAccUpdate
  split_ifs <;> simp_all

/-- Vehicles kept by the tail of the pass are kept by the whole pass. -/
lemma pruneBottom_kept_mono {vs : List Vehicle} {acc : Accident} {u : Vehicle} {j : ℕ}
    (h : j ∈ ((pruneBottom vs (pruneStep acc u).2).1.map Vehicle.idv)) :
    j ∈ ((pruneBottom (u :: vs) acc).1.map Vehicle.idv) := by
  show j ∈ (List.map _ (if (pruneStep acc u).1 then _ else _))
  split_ifs
  · exact h
  · simp only [List.map_cons, List.mem_cons]
    exact Or.inr h

/-- C4: when the bottom pruning pass removes a vehicle that the accident
references as front or rear participant, the surviving accident record no
longer references it and is left neither pending nor active.  The two
hypotheses beyond the claim are reachable-state facts: vehicle ids are
distinct (pointer identity), accident participants are never tow trucks (the
trigger excludes them), and while an accident is outstanding its participants
carry a reckless/target/crashed flag (set by the trigger and the crash). -/
theorem prune_nulls_references_and_resets (vs : List Vehicle) (acc : Accident)
    (v : Vehicle) (hmem : v ∈ vs) (hnodup : (vs.map Vehicle.idv).Nodup)
    (hdep : v.depann = false)
    (href : acc.car1 = some v.idv ∨ acc.car2 = some v.idv)
    (hflag : acc.pending = true ∨ acc.active = true →
      v.isReckless = true ∨ v.isAccidentTarget = true ∨ v.isCrashed = true)
    (hrem : v.idv ∉ ((pruneBottom vs acc).1.map Vehicle.idv)) :
    (pruneBottom vs acc).2.car1 ≠ some v.idv ∧
    (pruneBottom vs acc).2.car2 ≠ some v.idv ∧
    (pruneBottom vs acc).2.pending = false ∧
    (pruneBottom vs acc).2.active = false := by
  induction vs generalizing acc with
  | nil => cases hmem
  | cons u rest ih =>
      have hrest2 : (pruneBottom (u :: rest) acc).2 =
          (pruneBottom rest (pruneStep acc u).2).2 := rfl
      rcases List.mem_cons.mp hmem with rfl | hv
      · -- the removed vehicle is the head
        by_cases hs : (pruneStep acc v).1 = true
        · have hstep := pruneStep_removes_ref hdep hs hflag
          rw [hrest2]
          refine ⟨fun hc => ?_, fun hc => ?_, ?_, ?_⟩
          · exact hstep.1 (pruneBottom_car1_some hc)
          · exact hstep.2.1 (pruneBottom_car2_some hc)
          · by_contra hc
            simp only [Bool.not_eq_false] at hc
            exact absurd (pruneBottom_pending hc) (by simp [hstep.2.2.1])
          · by_contra hc
            simp only [Bool.not_eq_false] at hc
            exact absurd (pruneBottom_active hc) (by simp [hstep.2.2.2])
        · -- not removed at its own step: it survives, contradicting `hrem`
          exfalso
          apply hrem
          show v.idv ∈ (List.map _ (if (pruneStep acc v).1 then _ else _))
          rw [if_neg hs]
          simp
      · -- the removed vehicle sits in the tail
        have hne : u.idv ≠ v.idv := by
          intro he
          have h1 : u.idv ∈ rest.map Vehicle.idv := he ▸ List.mem_map_of_mem _ hv
          exact (List.nodup_cons.mp hnodup).1 h1
        have hnodup' : (rest.map Vehicle.idv).Nodup := (List.nodup_cons.mp hnodup).2
        have hrem' : v.idv ∉ ((pruneBottom rest (pruneStep acc u).2).1.map Vehicle.idv) :=
          fun hc => hrem (pruneBottom_kept_mono hc)
        have hflag' : (pruneStep acc u).2.pending = true ∨ (pruneStep acc u).2.active = true →
            v.isReckless = true ∨ v.isAccidentTarget = true ∨ v.isCrashed = true := by
          intro h
          rcases h with h | h
          · exact hflag (Or.inl (pruneStep_pending h))
          · exact hflag (Or.inr (pruneStep_active h))
        rw [hrest2]
        rcases href with h1 | h2
        · rcases pruneStep_other_car1 hne h1 with hkeep | ⟨hn1, hn2, hp, ha⟩
          · exact ih (pruneStep acc u).2 hv hnodup' (Or.inl hkeep) hflag' hrem'
          · refine ⟨fun hc => ?_, fun hc => ?_, ?_, ?_⟩
            · rw [pruneBottom_car1_some hc] at hn1
              cases hn1
            · rw [pruneBottom_car2_some hc] at hn2
              cases hn2
            · by_contra hc
              simp only [Bool.not_eq_false] at hc
              rw [pruneBottom_pending hc] at hp
              cases hp
            · by_contra hc
              simp only [Bool.not_eq_false] at hc
              rw [pruneBottom_active hc] at ha
              cases ha
        · rcases pruneStep_other_car2 hne h2 with hkeep | ⟨hn1, hn2, hp, ha⟩
          · exact ih (pruneStep acc u).2 hv hnodup' (Or.inr hkeep) hflag' hrem'
          · refine ⟨fun hc => ?_, fun hc => ?_, ?_, ?_⟩
            · rw [pruneBottom_car1_some hc] at hn1
              cases hn1
            · rw [pruneBottom_car2_some hc] at hn2
              cases hn2
            · by_contra hc
              simp only [Bool.not_eq_false] at hc
              rw [pruneBottom_pending hc] at hp
              cases hp
            · by_contra hc
              simp only [Bool.not_eq_false] at hc
              rw [pruneBottom_active hc] at ha
              cases ha

/-- Witness for C4: pruning the single crashed far-off-screen fixture car
removes it, nulls the front reference, and resets the accident. -/
theorem prune_nulls_references_and_resets_witness :
    cexPruneCar ∈ [cexPruneCar] ∧
    cexPruneAcc.car1 = some cexPruneCar.idv ∧
    cexPruneCar.idv ∉ ((pruneBottom [cexPruneCar] cexPruneAcc).1.map Vehicle.idv) ∧
    ((pruneBottom [cexPruneCar] cexPruneAcc).2.car1 ≠ some cexPruneCar.idv ∧
      (pruneBottom [cexPruneCar] cexPruneAcc).2.car2 ≠ some cexPruneCar.idv ∧
      (pruneBottom [cexPruneCar] cexPruneAcc).2.pending = false ∧
      (pruneBottom [cexPruneCar] cexPruneAcc).2.active = false) :=
  ⟨List.mem_singleton.mpr rfl, rfl,
    by norm_num [pruneBottom, pruneStep, pruneRemoves, pruneAccUpdate, pruneNullRefs,
      cexPruneCar, cexPruneAcc, mkCar, Vehicle.offScreen, SCREEN_WIDTH],
    prune_nulls_references_and_resets [cexPruneCar] cexPruneAcc cexPruneCar
      (List.mem_singleton.mpr rfl) (by simp) rfl (Or.inl rfl)
      (fun _ => Or.inr (Or.inr rfl))
      (by norm_num [pruneBottom, pruneStep, pruneRemoves, pruneAccUpdate, pruneNullRefs,
        cexPruneCar, cexPruneAcc, mkCar, Vehicle.offScreen, SCREEN_WIDTH])⟩

/-! ## Claim C6: orphaned towed vehicles are removed within the frame -/

/-- The emergency-vehicle scan fold is constant over dep-free lists. -/
lemma lastDep_fold_const (vs : List Vehicle) :
    ∀ init : Option ℕ, (∀ v ∈ vs, v.depann = false) →
      vs.foldl (fun acc v => if v.depann then some v.idv else acc) init = init := by
  induction vs with
  | nil => intro init _; rfl
  | cons u rest ih =>
      intro init h
      simp only [List.foldl_cons]
      rw [if_neg (by simp [h u (by simp)])]
      exact ih init (fun v hv => h v (by simp [hv]))

/-- Without tow trucks the scan comes back empty. -/
lemma lastDepId_eq_none {vs : List Vehicle} (h : ∀ v ∈ vs, v.depann = false) :
    lastDepId vs = none :=
  lastDep_fold_const vs none h

/-- With exactly one tow truck the scan returns its id. -/
lemma lastDep_fold_unique {t : Vehicle} :
    ∀ (l : List Vehicle) (init : Option ℕ), t ∈ l → t.depann = true →
      (∀ v ∈ l, v.depann = true → v = t) →
      l.foldl (fun acc v => if v.depann then some v.idv else acc) init = some t.idv := by
  intro l
  induction l with
  | nil => intro init ht; cases ht
  | cons u rest ih =>
      intro init ht hd huniq
      simp only [List.foldl_cons]
      by_cases hu : u.depann = true
      · have hut : u = t := huniq u (by simp) hu
        subst hut
        rw [if_pos hu]
        by_cases ht2 : u ∈ rest
        · exact ih (some u.idv) ht2 hd (fun v hv hvd => huniq v (by simp [hv]) hvd)
        · refine lastDep_fold_const rest (some u.idv) ?_
          intro v hv
          by_contra hvd
          simp only [Bool.not_eq_false] at hvd
          exact ht2 ((huniq v (by simp [hv]) hvd) ▸ hv)
      · rw [if_neg hu]
        rcases List.mem_cons.mp ht with rfl | ht2
        · exact absurd hd hu
        · exact ih init ht2 hd (fun v hv hvd => huniq v (by simp [hv]) hvd)

/-- With distinct ids, looking up a member's id finds that member. -/
lemma findV_of_nodup {vs : List Vehicle} {t : Vehicle}
    (ht : t ∈ vs) (hnodup : (vs.map Vehicle.idv).Nodup) : findV vs t.idv = some t := by
  induction vs with
  | nil => cases ht
  | cons u rest ih =>
      rcases List.mem_cons.mp ht with rfl | ht2
      · unfold findV
        simp [List.find?_cons]
      · have hne : u.idv ≠ t.idv := by
          intro he
          exact (List.nodup_cons.mp hnodup).1
            (he ▸ List.mem_map_of_mem Vehicle.idv ht2)
        unfold findV at *
        simp only [List.find?_cons]
        rw [show (decide (u.idv = t.idv)) = false from by simpa using hne]
        exact ih ht2 (List.nodup_cons.mp hnodup).2

/-- The claim's premise — no tow truck, or the (unique) tow truck past
`x < -600` — makes the cleanup condition fire. -/
lemma towTruckGone_of {vs : List Vehicle}
    (hnodup : (vs.map Vehicle.idv).Nodup)
    (hgone : (∀ v ∈ vs, v.depann = false) ∨
      (∃ t ∈ vs, t.depann = true ∧ t.x < -600 ∧ ∀ v ∈ vs, v.depann = true → v = t)) :
    towTruckGone vs = true := by
  unfold towTruckGone
  rcases hgone with h | ⟨t, ht, hd, hx, huniq⟩
  · rw [show lastDepId vs = none from lastDepId_eq_none h]
  · rw [show lastDepId vs = some t.idv from lastDep_fold_unique vs none ht hd huniq]
    dsimp only
    rw [findV_of_nodup ht hnodup]
    simpa using hx

/-- Under the premise, the cleanup pass marks every towed vehicle for
removal and keeps each vehicle's tow-truck flag and position. -/
lemma cleanupOrphans_spec {vs : List Vehicle} (h : towTruckGone vs = true) :
    ∀ w ∈ cleanupOrphans vs, (w.isTowed = true → w.toBeRemoved = true) ∧
      ∃ u ∈ vs, w.depann = u.depann ∧ w.x = u.x := by
  unfold cleanupOrphans
  rw [if_pos h]
  intro w hw
  rcases List.mem_map.mp hw with ⟨u, hu, rfl⟩
  by_cases ht : u.isTowed = true
  · rw [if_pos ht]
    exact ⟨fun _ => rfl, u, hu, rfl, rfl⟩
  · rw [if_neg ht]
    exact ⟨fun hc => absurd hc ht, u, hu, rfl, rfl⟩

/-- A vehicle kept by the pruning pass is an unchanged input vehicle whose
removal test came back false. -/
lemma pruneBottom_mem {vs : List Vehicle} {acc : Accident} {v : Vehicle}
    (hv : v ∈ (pruneBottom vs acc).1) : v ∈ vs ∧ pruneRemoves v = false := by
  induction vs generalizing acc with
  | nil => cases hv
  | cons u rest ih =>
      have hv2 : v ∈ (if (pruneStep acc u).1 then (pruneBottom rest (pruneStep acc u).2).1
          else u :: (pruneBottom rest (pruneStep acc u).2).1) := hv
      split_ifs at hv2 with hs
      · obtain ⟨h1, h2⟩ := ih hv2
        exact ⟨by simp [h1], h2⟩
      · rcases List.mem_cons.mp hv2 with rfl | hv3
        · exact ⟨by simp, by simpa using hs⟩
        · obtain ⟨h1, h2⟩ := ih hv3
          exact ⟨by simp [h1], h2⟩

/-- Every vehicle of the post-trigger collection inherits its tow/removal
tags from an input vehicle. -/
lemma applyTrigger_tags {vs : List Vehicle} {acc : Accident} {w : Vehicle}
    (hw : w ∈ (applyTrigger vs acc).1) :
    ∃ u ∈ vs, w.isTowed = u.isTowed ∧ w.toBeRemoved = u.toBeRemoved ∧
      w.depann = u.depann ∧ w.x = u.x := by
  unfold applyTrigger at hw
  split_ifs at hw
  · exact ⟨w, hw, rfl, rfl, rfl, rfl⟩
  · rcases hfp : findAccidentPair vs with _ | ⟨i, j⟩ <;> rw [hfp] at hw
    · exact ⟨w, hw, rfl, rfl, rfl, rfl⟩
    · dsimp only at hw
      rcases hgi : vs.get? i with _ | v1 <;> rw [hgi] at hw
      · exact ⟨w, hw, rfl, rfl, rfl, rfl⟩
      · rcases hgj : vs.get? j with _ | v2 <;> rw [hgj] at hw
        · exact ⟨w, hw, rfl, rfl, rfl, rfl⟩
        · dsimp only at hw
          rcases List.mem_or_eq_of_mem_set hw with hw2 | rfl
          · rcases List.mem_or_eq_of_mem_set hw2 with hw3 | rfl
            · exact ⟨w, hw3, rfl, rfl, rfl, rfl⟩
            · exact ⟨v1, List.get?_mem hgi, rfl, rfl, rfl, rfl⟩
          · exact ⟨v2, List.get?_mem hgj, rfl, rfl, rfl, rfl⟩

/-- Every vehicle of the post-collision collection inherits its tow flag and
tow-truck flag from an input vehicle. -/
lemma pendingCollision_tags {vs : List Vehicle} {acc : Accident} {w : Vehicle}
    (hw : w ∈ (pendingCollision vs acc).1) :
    ∃ u ∈ vs, w.isTowed = u.isTowed ∧ w.depann = u.depann := by
  unfold pendingCollision at hw
  by_cases hp : acc.pending = true
  case neg =>
    rw [if_neg hp] at hw
    exact ⟨w, hw, rfl, rfl⟩
  rw [if_pos hp] at hw
  · rcases h1 : acc.car1 with _ | i1 <;> rw [h1] at hw
    · exact ⟨w, hw, rfl, rfl⟩
    · rcases h2 : acc.car2 with _ | i2 <;> rw [h2] at hw
      · exact ⟨w, hw, rfl, rfl⟩
      · dsimp only at hw
        rcases hf1 : findV vs i1 with _ | c1 <;> rw [hf1] at hw
        · exact ⟨w, hw, rfl, rfl⟩
        · rcases hf2 : findV vs i2 with _ | c2 <;> rw [hf2] at hw
          · exact ⟨w, hw, rfl, rfl⟩
          · dsimp only at hw
            split_ifs at hw
            · rcases List.mem_map.mp hw with ⟨u1, hu1, rfl⟩
              rcases List.mem_map.mp hu1 with ⟨u2, hu2, rfl⟩
              rcases List.mem_map.mp hu2 with ⟨u3, hu3, rfl⟩
              refine ⟨u3, hu3, ?_, ?_⟩ <;> split_ifs <;> rfl
            · exact ⟨w, hw, rfl, rfl⟩

/-- Each bottom-loop iteration keeps the tow and tow-truck flags of every
entry it produces. -/
lemma bottomStep_tags {acc : Accident} {ambId towId : Option ℕ} {delta : ℚ}
    {light : TrafficLight} {cur : List Vehicle} {i : ℕ} {w : Vehicle}
    (hw : w ∈ bottomStep acc ambId towId delta light cur i) :
    ∃ u ∈ cur, w.isTowed = u.isTowed ∧ w.depann = u.depann := by
  unfold bottomStep at hw
  rcases hgi : cur.get? i with _ | v <;> rw [hgi] at hw
  · exact ⟨w, hw, rfl, rfl⟩
  · dsimp only at hw
    split_ifs at hw <;>
      first
        | exact ⟨w, hw, rfl, rfl⟩
        | exact (List.mem_or_eq_of_mem_set hw).elim (fun hw2 => ⟨w, hw2, rfl, rfl⟩)
            (fun he => ⟨v, List.get?_mem hgi, by rw [he]; simp, by rw [he]; simp⟩)

/-- The whole bottom loop keeps the tow and tow-truck flags of every entry
it produces. -/
lemma runLoop_tags {acc : Accident} {ambId towId : Option ℕ} {delta : ℚ}
    {light : TrafficLight} :
    ∀ (l : List ℕ) (cur : List Vehicle) (w : Vehicle),
      w ∈ l.foldl (bottomStep acc ambId towId delta light) cur →
      ∃ u ∈ cur, w.isTowed = u.isTowed ∧ w.depann = u.depann := by
  intro l
  induction l with
  | nil => intro cur w hw; exact ⟨w, hw, rfl, rfl⟩
  | cons j rest ih =>
      intro cur w hw
      obtain ⟨u1, hu1, ha, hb⟩ := ih _ w hw
      obtain ⟨u2, hu2, hc, hd⟩ := bottomStep_tags hu1
      exact ⟨u2, hu2, ha.trans hc, hb.trans hd⟩

/-- Members of the ambulance-lane-steered collection inherit tow and
tow-truck flags. -/
lemma ambulanceLane_tags {ambId : Option ℕ} {vs : List Vehicle} {acc : Accident}
    {w : Vehicle} (hw : w ∈ ambulanceLane ambId vs acc) :
    ∃ u ∈ vs, w.isTowed = u.isTowed ∧ w.depann = u.depann := by
  unfold ambulanceLane at hw
  rcases ambId with _ | aid
  · exact ⟨w, hw, rfl, rfl⟩
  · dsimp only at hw
    rcases hf : findV vs aid with _ | a <;> rw [hf] at hw
    · exact ⟨w, hw, rfl, rfl⟩
    · dsimp only at hw
      split_ifs at hw
      · rcases List.mem_map.mp hw with ⟨u, hu, rfl⟩
        refine ⟨u, hu, ?_, ?_⟩ <;> split_ifs <;> rfl
      · rcases List.mem_map.mp hw with ⟨u, hu, rfl⟩
        refine ⟨u, hu, ?_, ?_⟩ <;> split_ifs <;> rfl
      · exact ⟨w, hw, rfl, rfl⟩

/-- The alert stage does not touch the bottom collection. -/
lemma alertStage_bottom (delta : ℚ) (s : SimState) :
    (alertStage delta s).vehiclesBottom = s.vehiclesBottom := by
  unfold alertStage; dsimp only; split_ifs <;> rfl

/-- The top-road loop does not touch the bottom collection. -/
lemma topLoopStage_bottom (delta : ℚ) (s : SimState) :
    (topLoopStage delta s).vehiclesBottom = s.vehiclesBottom := rfl

/-- The spawn stage either leaves the bottom collection alone or appends one
fresh car (never towed, never a tow truck). -/
lemma spawnStage_bottom (o : Oracle) (delta : ℚ) (s : SimState) :
    (spawnStage o delta s).vehiclesBottom = s.vehiclesBottom ∨
    ∃ c, (spawnStage o delta s).vehiclesBottom = s.vehiclesBottom ++ [c] ∧
      c.isTowed = false ∧ c.depann = false := by
  unfold spawnStage spawnCarTop spawnCarBottom
  dsimp only
  split_ifs <;> first | exact Or.inl rfl | exact Or.inr ⟨_, rfl, rfl, rfl⟩

/-- C6: under the claim's premise (no tow truck in the bottom collection, or
the unique tow truck past `x < -600`; vehicle ids distinct), the cleanup
pass marks every towed vehicle `toBeRemoved`, and after the whole frame no
vehicle of the bottom collection is marked towed. -/
theorem orphan_towed_removed_within_frame (o : Oracle) (delta : ℚ) (s : SimState)
    (hnodup : (s.vehiclesBottom.map Vehicle.idv).Nodup)
    (hgone : (∀ v ∈ s.vehiclesBottom, v.depann = false) ∨
      (∃ t ∈ s.vehiclesBottom, t.depann = true ∧ t.x < -600 ∧
        ∀ v ∈ s.vehiclesBottom, v.depann = true → v = t)) :
    (∀ v ∈ cleanupOrphans s.vehiclesBottom, v.isTowed = true → v.toBeRemoved = true) ∧
    (∀ v ∈ (update o delta s).vehiclesBottom, v.isTowed = false) := by
  have hg := towTruckGone_of hnodup hgone
  have hPa : ∀ v ∈ cleanupOrphans s.vehiclesBottom,
      (v.isTowed = true → v.toBeRemoved = true) ∧ (v.depann = true → v.x < -600) := by
    intro v hv
    obtain ⟨hmark, u, hu, hdep, hx⟩ := cleanupOrphans_spec hg v hv
    refine ⟨hmark, fun hd => ?_⟩
    rw [hx]
    rcases hgone with h | ⟨t, ht, htd, htx, huniq⟩
    · rw [hdep] at hd
      exact absurd hd (by simp [h u hu])
    · rw [huniq u hu (hdep ▸ hd)]
      exact htx
  refine ⟨fun v hv => (hPa v hv).1, ?_⟩
  -- the cleanup-stage invariant survives spawning and the random trigger
  have hPa2 : ∀ v ∈ (maybeTriggerStage o (spawnStage o delta (cleanupStage s))).vehiclesBottom,
      (v.isTowed = true → v.toBeRemoved = true) ∧ (v.depann = true → v.x < -600) := by
    have hspawn : ∀ v ∈ (spawnStage o delta (cleanupStage s)).vehiclesBottom,
        (v.isTowed = true → v.toBeRemoved = true) ∧ (v.depann = true → v.x < -600) := by
      have hcb : (cleanupStage s).vehiclesBottom = cleanupOrphans s.vehiclesBottom := rfl
      intro v hv
      rcases spawnStage_bottom o delta (cleanupStage s) with he | ⟨c, he, hct, hcd⟩
      · rw [he, hcb] at hv
        exact hPa v hv
      · rw [he, hcb] at hv
        rcases List.mem_append.mp hv with hv2 | hv2
        · exact hPa v hv2
        · have hvc : v = c := List.mem_singleton.mp hv2
          subst hvc
          exact ⟨fun hc => absurd hc (by simp [hct]), fun hc => absurd hc (by simp [hcd])⟩
    unfold maybeTriggerStage triggerState
    split_ifs
    · intro v hv
      obtain ⟨u, hu, h1, h2, h3, h4⟩ := applyTrigger_tags hv
      obtain ⟨ha, hb⟩ := hspawn u hu
      exact ⟨fun hc => h2 ▸ ha (h1 ▸ hc), fun hc => h4 ▸ hb (h3 ▸ hc)⟩
    · exact hspawn
  -- after pruning: no towed, no tow truck
  have hPb : ∀ v ∈ (pruneStage (lightStage delta
      (maybeTriggerStage o (spawnStage o delta (cleanupStage s))))).vehiclesBottom,
      v.isTowed = false ∧ v.depann = false := by
    intro v hv
    have hv2 : v ∈ (pruneBottom
        (maybeTriggerStage o (spawnStage o delta (cleanupStage s))).vehiclesBottom
        (maybeTriggerStage o (spawnStage o delta (cleanupStage s))).currentAccident).1 := hv
    obtain ⟨hmem, hkeep⟩ := pruneBottom_mem hv2
    obtain ⟨hmk, hxd⟩ := hPa2 v hmem
    have hdep : v.depann = false := by
      by_contra hd
      simp only [Bool.not_eq_false] at hd
      unfold pruneRemoves at hkeep
      rw [if_pos hd] at hkeep
      simp [hxd hd] at hkeep
    refine ⟨?_, hdep⟩
    by_contra htw
    simp only [Bool.not_eq_false] at htw
    unfold pruneRemoves at hkeep
    rw [if_neg (by simp [hdep]), if_pos (by simp [htw])] at hkeep
    simp [hmk htw] at hkeep
  -- the collision stage and the frame tail keep the property
  have hPc : ∀ v ∈ (collisionStage (pruneStage (lightStage delta
      (maybeTriggerStage o (spawnStage o delta (cleanupStage s)))))).vehiclesBottom,
      v.isTowed = false ∧ v.depann = false := by
    intro v hv
    obtain ⟨u, hu, h1, h2⟩ := pendingCollision_tags hv
    obtain ⟨ha, hb⟩ := hPb u hu
    exact ⟨h1.trans ha, h2.trans hb⟩
  intro v hv
  set s6 := collisionStage (pruneStage (lightStage delta
    (maybeTriggerStage o (spawnStage o delta (cleanupStage s))))) with hs6
  have hv2 : v ∈ (emergencyStage delta s6).vehiclesBottom := by
    have heq : (update o delta s).vehiclesBottom = (emergencyStage delta s6).vehiclesBottom := by
      show (alertStage delta (topLoopStage delta (emergencyStage delta s6))).vehiclesBottom = _
      rw [alertStage_bottom, topLoopStage_bottom]
    rw [heq] at hv
    exact hv
  have hnotow : lastDepId s6.vehiclesBottom = none :=
    lastDepId_eq_none (fun u hu => (hPc u hu).2)
  have hv3 : v ∈ (frameTail delta s6.lightBottom s6.vehiclesBottom s6.currentAccident).1 := hv2
  unfold frameTail at hv3
  rw [hnotow] at hv3
  unfold towAttach towedPositions runLoop at hv3
  dsimp only at hv3
  obtain ⟨u1, hu1, ht1, hd1⟩ := runLoop_tags _ _ _ hv3
  obtain ⟨u2, hu2, ht2, hd2⟩ := ambulanceLane_tags hu1
  exact ht1.trans (ht2.trans (hPc u2 hu2).1)

/-- Witness for C6: a single towed car with no tow truck on the road is
marked in the cleanup pass and gone from the bottom collection after the
frame. -/
theorem orphan_towed_removed_within_frame_witness :
    (∀ v ∈ cleanupOrphans cexOrphanState.vehiclesBottom,
      v.isTowed = true → v.toBeRemoved = true) ∧
    (∀ v ∈ (update cexOracle (1/60) cexOrphanState).vehiclesBottom, v.isTowed = false) :=
  orphan_towed_removed_within_frame cexOracle (1/60) cexOrphanState
    (List.nodup_singleton cexOrphanCar.idv)
    (Or.inl (fun v hv => by
      have hvc : v = cexOrphanCar := List.mem_singleton.mp hv
      subst hvc
      rfl))

/-! ## Claim C2: the accident trigger selects the first qualifying pair -/

/-- Indices `(p, q)` form a qualifying (rear, front) pair for the trigger
scan. -/
def PairOK (vs : List Vehicle) (p q : ℕ) : Prop :=
  p ≠ q ∧ ∃ a b, vs.get? p = some a ∧ vs.get? q = some b ∧
    elig a = true ∧ pairCond a b = true

/-- The inner scan misses when no suffix position hits. -/
lemma innerScan_none (v1 : Vehicle) (i : ℕ) :
    ∀ (l : List Vehicle) (j0 : ℕ),
      (∀ m b, l.get? m = some b → ¬(j0 + m ≠ i ∧ pairCond v1 b = true)) →
      innerScan v1 i j0 l = none := by
  intro l
  induction l with
  | nil => intro j0 _; rfl
  | cons v2 rest ih =>
      intro j0 h
      unfold innerScan
      rw [if_neg (by simpa using h 0 v2 rfl)]
      refine ih (j0 + 1) ?_
      intro m b hm hc
      obtain ⟨hc1, hc2⟩ := hc
      exact h (m + 1) b hm ⟨by omega, hc2⟩

/-- The inner scan returns the first hit. -/
lemma innerScan_some (v1 : Vehicle) (i : ℕ) :
    ∀ (l : List Vehicle) (j0 m : ℕ) (b : Vehicle),
      l.get? m = some b → j0 + m ≠ i → pairCond v1 b = true →
      (∀ q c, q < m → l.get? q = some c → ¬(j0 + q ≠ i ∧ pairCond v1 c = true)) →
      innerScan v1 i j0 l = some (j0 + m) := by
  intro l
  induction l with
  | nil => intro j0 m b hm; cases hm
  | cons v2 rest ih =>
      intro j0 m b hm hne hc hfirst
      cases m with
      | zero =>
          injection hm with hb
          subst hb
          unfold innerScan
          rw [if_pos ⟨by simpa using hne, hc⟩]
          simp
      | succ m =>
          unfold innerScan
          rw [if_neg (by simpa using hfirst 0 v2 (Nat.succ_pos m) rfl)]
          have hpre : ∀ q c, q < m → rest.get? q = some c →
              ¬(j0 + 1 + q ≠ i ∧ pairCond v1 c = true) := by
            intro q c hq hqc hhit
            obtain ⟨hh1, hh2⟩ := hhit
            exact hfirst (q + 1) c (by omega) hqc ⟨by omega, hh2⟩
          have hrec := ih (j0 + 1) m b hm (by omega) hc hpre
          rw [show j0 + (m + 1) = j0 + 1 + m by omega]
          exact hrec

/-- The outer scan returns the first row whose inner scan hits, together
with that hit. -/
lemma outerScan_some (full : List Vehicle) :
    ∀ (l : List Vehicle) (i0 n : ℕ) (v1 : Vehicle) (j : ℕ),
      l.get? n = some v1 → elig v1 = true → innerScan v1 (i0 + n) 0 full = some j →
      (∀ p a, p < n → l.get? p = some a → elig a = true →
        innerScan a (i0 + p) 0 full = none) →
      outerScan full i0 l = some (i0 + n, j) := by
  intro l
  induction l with
  | nil => intro i0 n v1 j hn; cases hn
  | cons u rest ih =>
      intro i0 n v1 j hn he hinner hfirst
      cases n with
      | zero =>
          injection hn with hu
          subst hu
          unfold outerScan
          rw [if_pos he, show innerScan u i0 0 full = some j from by simpa using hinner]
          simp
      | succ n =>
          have hinner2 : innerScan v1 (i0 + 1 + n) 0 full = some j := by
            rw [show i0 + 1 + n = i0 + (n + 1) by omega]
            exact hinner
          have hpre : ∀ p a, p < n → rest.get? p = some a → elig a = true →
              innerScan a (i0 + 1 + p) 0 full = none := by
            intro p a hp hpa hea
            rw [show i0 + 1 + p = i0 + (p + 1) by omega]
            exact hfirst (p + 1) a (by omega) hpa hea
          have hrec := ih (i0 + 1) n v1 j hn he hinner2 hpre
          rw [show i0 + 1 + n = i0 + (n + 1) by omega] at hrec
          unfold outerScan
          by_cases heu : elig u = true
          · have h0 : innerScan u i0 0 full = none := by
              simpa using hfirst 0 u (Nat.succ_pos n) rfl heu
            rw [if_pos heu, h0]
            exact hrec
          · rw [if_neg heu]
            exact hrec

/-- C2: triggering while an accident is outstanding changes nothing;
otherwise, when `(i, j)` is the first qualifying (rear, front) pair in
iteration order (no earlier rear row qualifies with any front, and no
earlier front qualifies for row `i`), the scan selects exactly `(i, j)`, the
rear car's speed is multiplied by 2.8 and it is marked reckless, the front
car's speed is multiplied by 0.4 and it is marked accident-target, both are
lane-locked, and the accident becomes pending with `car1` the front id and
`car2` the rear id. -/
theorem triggerAccident_first_pair :
    (∀ (vs : List Vehicle) (acc : Accident),
      acc.active = true ∨ acc.pending = true → applyTrigger vs acc = (vs, acc)) ∧
    (∀ (vs : List Vehicle) (acc : Accident) (i j : ℕ) (v1 v2 : Vehicle),
      acc.active = false → acc.pending = false →
      vs.get? i = some v1 → vs.get? j = some v2 →
      i ≠ j → elig v1 = true → pairCond v1 v2 = true →
      (∀ p, p < i → ∀ q, ¬PairOK vs p q) →
      (∀ q, q < j → ¬PairOK vs i q) →
      findAccidentPair vs = some (i, j) ∧
      (applyTrigger vs acc).2.pending = true ∧
      (applyTrigger vs acc).2.active = false ∧
      (applyTrigger vs acc).2.car1 = some v2.idv ∧
      (applyTrigger vs acc).2.car2 = some v1.idv ∧
      (applyTrigger vs acc).1.get? i = some
        { v1 with isReckless := true, laneLock := true, speed := v1.speed * (28/10) } ∧
      (applyTrigger vs acc).1.get? j = some
        { v2 with isAccidentTarget := true, laneLock := true,
                  speed := v2.speed * (4/10) }) := by
  constructor
  · intro vs acc h
    unfold applyTrigger
    rw [if_pos (by rcases h with h | h <;> simp [h])]
  · intro vs acc i j v1 v2 hact hpend hi hj hne he hc hrows hcols
    have hinner : innerScan v1 i 0 vs = some j := by
      have := innerScan_some v1 i vs 0 j v2 hj (by omega) hc ?_
      · simpa using this
      · intro q c hq hqc hhit
        exact hcols q hq ⟨fun hiq => hhit.1 (by omega),
          v1, c, hi, hqc, he, hhit.2⟩
    have hfind : findAccidentPair vs = some (i, j) := by
      unfold findAccidentPair
      have := outerScan_some vs vs 0 i v1 j hi he (by simpa using hinner) ?_
      · simpa using this
      · intro p a hp hpa hea
        apply innerScan_none
        intro m b hmb hhit
        exact hrows p hp m ⟨fun hpm => hhit.1 (by omega),
          a, b, hpa, hmb, hea, hhit.2⟩
    have hlen_i : i < vs.length := (List.get?_eq_some.mp hi).1
    have hlen_j : j < vs.length := (List.get?_eq_some.mp hj).1
    refine ⟨hfind, ?_⟩
    unfold applyTrigger
    rw [if_neg (by simp [hact, hpend]), hfind]
    simp only [hi, hj]
    refine ⟨trivial, hact, trivial, trivial, ?_, ?_⟩
    · rw [List.get?_set_ne _ _ (Ne.symm hne), List.get?_set_eq_of_lt _ hlen_i]
    · rw [List.get?_set_eq_of_lt]
      rw [List.length_set]
      exact hlen_j

/-- Witness for C2: two fixture cars 150 units apart in the same lane are
selected as the first pair; the rear is made reckless at 2.8x speed, the
front becomes the 0.4x target, and the accident goes pending. -/
theorem triggerAccident_first_pair_witness :
    findAccidentPair cexTrigVs = some (0, 1) ∧
    (applyTrigger cexTrigVs accNone).2.pending = true ∧
    (applyTrigger cexTrigVs accNone).2.active = false ∧
    (applyTrigger cexTrigVs accNone).2.car1 = some cexTrigFront.idv ∧
    (applyTrigger cexTrigVs accNone).2.car2 = some cexTrigRear.idv ∧
    (applyTrigger cexTrigVs accNone).1.get? 0 = some
      { cexTrigRear with isReckless := true, laneLock := true,
                         speed := cexTrigRear.speed * (28/10) } ∧
    (applyTrigger cexTrigVs accNone).1.get? 1 = some
      { cexTrigFront with isAccidentTarget := true, laneLock := true,
                          speed := cexTrigFront.speed * (4/10) } :=
  triggerAccident_first_pair.2 cexTrigVs accNone 0 1 cexTrigRear cexTrigFront
    rfl rfl rfl rfl (by omega)
    (by norm_num [elig, Vehicle.offScreen, cexTrigRear, mkCar, SCREEN_WIDTH])
    (by norm_num [pairCond, elig, Vehicle.offScreen, cexTrigRear, cexTrigFront, mkCar,
      SCREEN_WIDTH])
    (fun p hp => absurd hp (Nat.not_lt_zero p))
    (fun q hq hok => hok.1 (by omega))

/-! ## Claim C3: tow pickup detaches both cars and clears the accident -/

/-- A bottom-loop iteration leaves a towed entry untouched: at its own index
it is skipped, and other iterations write other indices. -/
lemma bottomStep_towed_fixed (acc : Accident) (ambId towId : Option ℕ) (delta : ℚ)
    (light : TrafficLight) (vs : List Vehicle) (i : ℕ) {k : ℕ} {w : Vehicle}
    (hk : vs.get? k = some w) (hw : w.isTowed = true) :
    (bottomStep acc ambId towId delta light vs i).get? k = some w := by
  unfold bottomStep
  cases hvi : vs.get? i with
  | none => exact hk
  | some v =>
      dsimp only
      by_cases hik : i = k
      · subst hik
        rw [hvi] at hk
        injection hk with hvw
        subst hvw
        rw [if_pos (by simp [hw])]
        exact hvi
      · split_ifs <;> (try exact hk) <;> rw [List.get?_set_ne _ _ hik] <;> exact hk

/-- The whole bottom traffic loop leaves towed entries untouched. -/
lemma runLoop_towed_fixed (acc : Accident) (ambId towId : Option ℕ) (delta : ℚ)
    (light : TrafficLight) :
    ∀ (l : List ℕ) (cur : List Vehicle) {k : ℕ} {w : Vehicle},
      cur.get? k = some w → w.isTowed = true →
      (l.foldl (bottomStep acc ambId towId delta light) cur).get? k = some w := by
  intro l
  induction l with
  | nil => intro cur k w hk _; exact hk
  | cons j rest ih =>
      intro cur k w hk hw
      exact ih _ (bottomStep_towed_fixed acc ambId towId delta light cur j hk hw) hw

/-- The towed-position update keeps each entry's towed/crashed/offset state. -/
lemma towedPositions_entry (towId : Option ℕ) (vs : List Vehicle) {k : ℕ} {c : Vehicle}
    (hk : vs.get? k = some c) :
    ∃ d, (towedPositions towId vs).get? k = some d ∧ d.isTowed = c.isTowed ∧
      d.isCrashed = c.isCrashed ∧ d.towOffsetX = c.towOffsetX := by
  unfold towedPositions
  cases towId with
  | none => exact ⟨c, hk, rfl, rfl, rfl⟩
  | some tid =>
      dsimp only
      cases hf : findV vs tid with
      | none => exact ⟨c, hk, rfl, rfl, rfl⟩
      | some t =>
          dsimp only
          refine ⟨if c.isTowed then { c with x := t.x + c.towOffsetX, y := t.y } else c,
            ?_, ?_, ?_, ?_⟩
          · rw [List.get?_map, hk]
            rfl
          · split_ifs <;> rfl
          · split_ifs <;> rfl
          · split_ifs <;> rfl

/-- The ambulance lane steering keeps each entry's towed/crashed/offset
state. -/
lemma ambulanceLane_entry (ambId : Option ℕ) (vs : List Vehicle) (acc : Accident)
    {k : ℕ} {c : Vehicle} (hk : vs.get? k = some c) :
    ∃ d, (ambulanceLane ambId vs acc).get? k = some d ∧ d.isTowed = c.isTowed ∧
      d.isCrashed = c.isCrashed ∧ d.towOffsetX = c.towOffsetX := by
  unfold ambulanceLane
  cases ambId with
  | none => exact ⟨c, hk, rfl, rfl, rfl⟩
  | some aid =>
      dsimp only
      cases hf : findV vs aid with
      | none => exact ⟨c, hk, rfl, rfl, rfl⟩
      | some a =>
          dsimp only
          split_ifs
          · refine ⟨if c.idv = aid then { c with targetY := laneYBottom 2 } else c,
              ?_, ?_, ?_, ?_⟩
            · show (List.map _ vs).get? k = _
              rw [List.get?_map, hk]
              rfl
            · split_ifs <;> rfl
            · split_ifs <;> rfl
            · split_ifs <;> rfl
          · refine ⟨if c.idv = aid then { c with targetY := acc.y } else c, ?_, ?_, ?_, ?_⟩
            · show (List.map _ vs).get? k = _
              rw [List.get?_map, hk]
              rfl
            · split_ifs <;> rfl
            · split_ifs <;> rfl
            · split_ifs <;> rfl
          · exact ⟨c, hk, rfl, rfl, rfl⟩

/-- C3: in a frame whose tow truck reports `hasPickedUp` while the accident
is active, by the end of that frame's update both live accident participants
are towed with crashed cleared and offsets 100 / 200, and the accident is
neither active nor pending.  (`acc.pending = false` holds whenever
`acc.active = true` in reachable states; the participants' ids are distinct
because the trigger picks two different vehicles.) -/
theorem towPickup_detaches_and_clears (delta : ℚ) (light : TrafficLight)
    (vs : List Vehicle) (acc : Accident) (tid : ℕ) (t : Vehicle)
    (k1 k2 : ℕ) (c1 c2 : Vehicle)
    (htid : lastDepId vs = some tid) (ht : findV vs tid = some t)
    (hpick : t.hasPickedUp = true) (hact : acc.active = true)
    (hpend : acc.pending = false)
    (h1 : acc.car1 = some c1.idv) (h2 : acc.car2 = some c2.idv)
    (hk1 : vs.get? k1 = some c1) (hk2 : vs.get? k2 = some c2)
    (hne : c1.idv ≠ c2.idv) :
    (∃ w1, (frameTail delta light vs acc).1.get? k1 = some w1 ∧
      w1.isTowed = true ∧ w1.isCrashed = false ∧ w1.towOffsetX = 100) ∧
    (∃ w2, (frameTail delta light vs acc).1.get? k2 = some w2 ∧
      w2.isTowed = true ∧ w2.isCrashed = false ∧ w2.towOffsetX = 200) ∧
    (frameTail delta light vs acc).2.active = false ∧
    (frameTail delta light vs acc).2.pending = false := by
  have key : frameTail delta light vs acc =
      (runLoop (bottomStep { acc with active := false } (lastAmbId vs) (some tid) delta light)
        (ambulanceLane (lastAmbId vs)
          (towedPositions (some tid)
            (setV (setV vs c1.idv (towAttachFront t.y)) c2.idv (towAttachRear t.y)))
          { acc with active := false }),
       { acc with active := false }) := by
    unfold frameTail towAttach
    simp only [htid, ht, h1, h2]
    rw [if_pos ⟨hpick, hact⟩]
  rw [key]
  have e1 : (setV (setV vs c1.idv (towAttachFront t.y)) c2.idv (towAttachRear t.y)).get? k1 =
      some (towAttachFront t.y c1) := by
    unfold setV
    rw [List.get?_map, List.get?_map, hk1]
    simp [towAttachFront, hne]
  have e2 : (setV (setV vs c1.idv (towAttachFront t.y)) c2.idv (towAttachRear t.y)).get? k2 =
      some (towAttachRear t.y c2) := by
    unfold setV
    rw [List.get?_map, List.get?_map, hk2]
    simp [towAttachRear, Ne.symm hne]
  obtain ⟨d1, hd1, hdt1, hdc1, hdo1⟩ := towedPositions_entry (some tid) _ e1
  obtain ⟨g1, hg1, hgt1, hgc1, hgo1⟩ := ambulanceLane_entry (lastAmbId vs) _ _ hd1
  obtain ⟨d2, hd2, hdt2, hdc2, hdo2⟩ := towedPositions_entry (some tid) _ e2
  obtain ⟨g2, hg2, hgt2, hgc2, hgo2⟩ := ambulanceLane_entry (lastAmbId vs) _ _ hd2
  have ht1 : g1.isTowed = true := by rw [hgt1, hdt1]; rfl
  have ht2 : g2.isTowed = true := by rw [hgt2, hdt2]; rfl
  refine ⟨⟨g1, ?_, ht1, ?_, ?_⟩, ⟨g2, ?_, ht2, ?_, ?_⟩, rfl, hpend⟩
  · exact runLoop_towed_fixed _ _ _ _ _ _ _ hg1 ht1
  · rw [hgc1, hdc1]; rfl
  · rw [hgo1, hdo1]; rfl
  · exact runLoop_towed_fixed _ _ _ _ _ _ _ hg2 ht2
  · rw [hgc2, hdc2]; rfl
  · rw [hgo2, hdo2]; rfl

/-- Witness for C3: at the fixture state (tow truck picked up, active
accident over the two crashed cars), both cars end the frame towed with
crashed cleared and the accident cleared. -/
theorem towPickup_detaches_and_clears_witness :
    (∃ w1, (frameTail (1/60) cexLightB cexTowVs cexTowAcc).1.get? 0 = some w1 ∧
      w1.isTowed = true ∧ w1.isCrashed = false ∧ w1.towOffsetX = 100) ∧
    (∃ w2, (frameTail (1/60) cexLightB cexTowVs cexTowAcc).1.get? 1 = some w2 ∧
      w2.isTowed = true ∧ w2.isCrashed = false ∧ w2.towOffsetX = 200) ∧
    (frameTail (1/60) cexLightB cexTowVs cexTowAcc).2.active = false ∧
    (frameTail (1/60) cexLightB cexTowVs cexTowAcc).2.pending = false :=
  towPickup_detaches_and_clears (1/60) cexLightB cexTowVs cexTowAcc 7 cexTowTruck
    0 1 cexCrash1 cexCrash2 rfl rfl rfl rfl rfl rfl rfl rfl rfl (by decide)

/-- Witness for the amended C5 theorem: the trailing fixture car 40 units
behind the leader's rear edge is forced to stop with its x unchanged. -/
theorem spacing_violation_forces_stop_witness :
    cexStopVs.get? 1 = some cexTrailerNear ∧
    spacingStopB cexStopVs 1 (bottomPre accNone none none cexStopVs cexTrailerNear) = true ∧
    (∃ w, (bottomStep accNone none none (1/60) cexLightB cexStopVs 1).get? 1 = some w ∧
      w.forcedStop = true ∧ w.x = cexTrailerNear.x) :=
  ⟨rfl,
    by norm_num [spacingStopB, bottomPre, tryYield, applyAvoid, accNone, dodge,
      currentLaneIdx, cexStopVs, cexLeaderCar, cexTrailerNear, mkCar, VEHICLE_WIDTH,
      SAFE_DISTANCE, List.range_succ],
    (spacing_violation_forces_stop).1 accNone none none (1/60) cexLightB cexStopVs 1
      cexTrailerNear rfl rfl rfl rfl rfl rfl
      (by norm_num [spacingStopB, bottomPre, tryYield, applyAvoid, accNone, dodge,
        currentLaneIdx, cexStopVs, cexLeaderCar, cexTrailerNear, mkCar, VEHICLE_WIDTH,
        SAFE_DISTANCE, List.range_succ])⟩

/-! ## Claim C10: the accident machinery is confined to the bottom road -/

/-- Each top-loop iteration preserves the five accident flags of every entry
it produces. -/
lemma topStep_tags {delta : ℚ} {light : TrafficLight} {cur : List Vehicle}
    {i : ℕ} {w : Vehicle} (hw : w ∈ topStep delta light cur i) :
    ∃ u ∈ cur, w.isReckless = u.isReckless ∧ w.isAccidentTarget = u.isAccidentTarget ∧
      w.isCrashed = u.isCrashed ∧ w.isTowed = u.isTowed ∧
      w.changedLane = u.changedLane := by
  unfold topStep at hw
  rcases hgi : cur.get? i with _ | v <;> rw [hgi] at hw
  · exact ⟨w, hw, rfl, rfl, rfl, rfl, rfl⟩
  · dsimp only at hw
    rcases List.mem_or_eq_of_mem_set hw with hw2 | he
    · exact ⟨w, hw2, rfl, rfl, rfl, rfl, rfl⟩
    · exact ⟨v, List.get?_mem hgi, by rw [he]; simp, by rw [he]; simp,
        by rw [he]; simp, by rw [he]; simp, by rw [he]; simp⟩

/-- The whole top loop preserves the five accident flags of every entry it
produces. -/
lemma runLoopTop_tags {delta : ℚ} {light : TrafficLight} :
    ∀ (l : List ℕ) (cur : List Vehicle) (w : Vehicle),
      w ∈ l.foldl (topStep delta light) cur →
      ∃ u ∈ cur, w.isReckless = u.isReckless ∧ w.isAccidentTarget = u.isAccidentTarget ∧
        w.isCrashed = u.isCrashed ∧ w.isTowed = u.isTowed ∧
        w.changedLane = u.changedLane := by
  intro l
  induction l with
  | nil => intro cur w hw; exact ⟨w, hw, rfl, rfl, rfl, rfl, rfl⟩
  | cons j rest ih =>
      intro cur w hw
      obtain ⟨u1, hu1, ha1, ha2, ha3, ha4, ha5⟩ := ih _ w hw
      obtain ⟨u2, hu2, hb1, hb2, hb3, hb4, hb5⟩ := topStep_tags hu1
      exact ⟨u2, hu2, ha1.trans hb1, ha2.trans hb2, ha3.trans hb3,
        ha4.trans hb4, ha5.trans hb5⟩

/-- The orphan cleanup does not touch the top collection. -/
lemma cleanupStage_top (s : SimState) :
    (cleanupStage s).vehiclesTop = s.vehiclesTop := rfl

/-- The accident trigger does not touch the top collection. -/
lemma triggerState_top (s : SimState) :
    (triggerState s).vehiclesTop = s.vehiclesTop := rfl

/-- The random-accident stage does not touch the top collection. -/
lemma maybeTriggerStage_top (o : Oracle) (s : SimState) :
    (maybeTriggerStage o s).vehiclesTop = s.vehiclesTop := by
  unfold maybeTriggerStage; split_ifs <;> rfl

/-- The light stage does not touch the top collection. -/
lemma lightStage_top (delta : ℚ) (s : SimState) :
    (lightStage delta s).vehiclesTop = s.vehiclesTop := rfl

/-- The pruning stage applies the plain off-screen filter to the top
collection. -/
lemma pruneStage_top (s : SimState) :
    (pruneStage s).vehiclesTop = pruneTop s.vehiclesTop := rfl

/-- The collision stage does not touch the top collection. -/
lemma collisionStage_top (s : SimState) :
    (collisionStage s).vehiclesTop = s.vehiclesTop := rfl

/-- The emergency stage does not touch the top collection. -/
lemma emergencyStage_top (delta : ℚ) (s : SimState) :
    (emergencyStage delta s).vehiclesTop = s.vehiclesTop := rfl

/-- The top-loop stage runs exactly the light-and-spacing loop on the top
collection. -/
lemma topLoopStage_top (delta : ℚ) (s : SimState) :
    (topLoopStage delta s).vehiclesTop =
      runLoop (topStep delta s.lightTop) s.vehiclesTop := rfl

/-- The alert stage does not touch the top collection. -/
lemma alertStage_top (delta : ℚ) (s : SimState) :
    (alertStage delta s).vehiclesTop = s.vehiclesTop := by
  unfold alertStage; dsimp only; split_ifs <;> rfl

/-- The spawn stage either leaves the top collection alone or appends one
fresh car with every accident flag clear. -/
lemma spawnStage_top (o : Oracle) (delta : ℚ) (s : SimState) :
    (spawnStage o delta s).vehiclesTop = s.vehiclesTop ∨
    ∃ c, (spawnStage o delta s).vehiclesTop = s.vehiclesTop ++ [c] ∧
      c.isReckless = false ∧ c.isAccidentTarget = false ∧ c.isCrashed = false ∧
      c.isTowed = false ∧ c.changedLane = false := by
  unfold spawnStage spawnCarTop spawnCarBottom
  dsimp only
  split_ifs <;>
    first
      | exact Or.inl rfl
      | exact Or.inr ⟨_, rfl, rfl, rfl, rfl, rfl, rfl⟩

/-- The ambulance call does not touch the top collection. -/
lemma callAmbulance_top (s : SimState) :
    (callAmbulance s).vehiclesTop = s.vehiclesTop := by
  unfold callAmbulance triggerState
  dsimp only
  split_ifs <;> rfl

/-- The tow-truck call does not touch the top collection. -/
lemma callDepannage_top (s : SimState) :
    (callDepannage s).vehiclesTop = s.vehiclesTop := by
  unfold callDepannage; split_ifs <;> rfl

/-- One frame keeps the top collection free of the five accident flags. -/
lemma update_top_clean (o : Oracle) (delta : ℚ) (s : SimState)
    (hs : ∀ v ∈ s.vehiclesTop, v.isReckless = false ∧ v.isAccidentTarget = false ∧
      v.isCrashed = false ∧ v.isTowed = false ∧ v.changedLane = false) :
    ∀ v ∈ (update o delta s).vehiclesTop,
      v.isReckless = false ∧ v.isAccidentTarget = false ∧ v.isCrashed = false ∧
      v.isTowed = false ∧ v.changedLane = false := by
  intro v hv
  unfold update at hv
  rw [alertStage_top, topLoopStage_top] at hv
  unfold runLoop at hv
  obtain ⟨u, hu, h1, h2, h3, h4, h5⟩ := runLoopTop_tags _ _ _ hv
  rw [emergencyStage_top, collisionStage_top, pruneStage_top] at hu
  have hu2 : u ∈ (lightStage delta (maybeTriggerStage o
      (spawnStage o delta (cleanupStage s)))).vehiclesTop :=
    List.mem_of_mem_filter hu
  rw [lightStage_top, maybeTriggerStage_top] at hu2
  have hflags : u.isReckless = false ∧ u.isAccidentTarget = false ∧
      u.isCrashed = false ∧ u.isTowed = false ∧ u.changedLane = false := by
    rcases spawnStage_top o delta (cleanupStage s) with he | ⟨c, he, hc1, hc2, hc3, hc4, hc5⟩
    · rw [he, cleanupStage_top] at hu2
      exact hs u hu2
    · rw [he] at hu2
      rcases List.mem_append.mp hu2 with hin | hone
      · rw [cleanupStage_top] at hin
        exact hs u hin
      · have huc : u = c := List.mem_singleton.mp hone
        subst huc
        exact ⟨hc1, hc2, hc3, hc4, hc5⟩
  obtain ⟨f1, f2, f3, f4, f5⟩ := hflags
  exact ⟨h1.trans f1, h2.trans f2, h3.trans f3, h4.trans f4, h5.trans f5⟩

/-- C10: the accident and emergency machinery never touches the top road -
the accident trigger, the ambulance call and the tow-truck call leave the
top collection unchanged, and in every reachable state no top-road vehicle
is reckless, an accident target, crashed, towed, or lane-changed. -/
theorem topRoad_never_accident_flagged (s t : SimState) (h : Reachable s) :
    (triggerState t).vehiclesTop = t.vehiclesTop ∧
    (callAmbulance t).vehiclesTop = t.vehiclesTop ∧
    (callDepannage t).vehiclesTop = t.vehiclesTop ∧
    ∀ v ∈ s.vehiclesTop,
      v.isReckless = false ∧ v.isAccidentTarget = false ∧ v.isCrashed = false ∧
      v.isTowed = false ∧ v.changedLane = false := by
  refine ⟨triggerState_top t, callAmbulance_top t, callDepannage_top t, ?_⟩
  induction h with
  | init => intro v hv; simp [initState] at hv
  | step s o delta hr ih => exact update_top_clean o delta s ih
  | amb s hr ih => intro v hv; rw [callAmbulance_top] at hv; exact ih v hv
  | dep s hr ih => intro v hv; rw [callDepannage_top] at hv; exact ih v hv
  | trig s hr ih => intro v hv; rw [triggerState_top] at hv; exact ih v hv

/-- Witness for C10 at the constructor state. -/
theorem topRoad_never_accident_flagged_witness :
    (triggerState initState).vehiclesTop = initState.vehiclesTop ∧
    (callAmbulance initState).vehiclesTop = initState.vehiclesTop ∧
    (callDepannage initState).vehiclesTop = initState.vehiclesTop ∧
    ∀ v ∈ initState.vehiclesTop,
      v.isReckless = false ∧ v.isAccidentTarget = false ∧ v.isCrashed = false ∧
      v.isTowed = false ∧ v.changedLane = false :=
  topRoad_never_accident_flagged initState initState Reachable.init

end TrafficSim

